import Mathlib

/-!
Verification of the caching and response-shaping core of the planka_mcp
server (src/planka_mcp): the truncator, paginator, card formatters, the
multi-tier TTL cache, and the read-tool handlers that compose them.

Python strings are modelled as Lean `String` (both are sequences of code
points); Python dicts (insertion-ordered, string-keyed) are modelled as
association lists; Python `None`-able values and `dict.get` defaults are
modelled with `Option` and `Option.getD`.  Arithmetic done in Python
floats (`int(limit * 0.6)`, `last_newline > truncate_at * 0.8`) is
modelled exactly over the rationals (`limit * 6 / 10` with natural floor
division, `10 * i > 8 * t`); for the magnitudes the program handles the
float computation and the exact one coincide.
-/

set_option maxRecDepth 8192

namespace PlankaMcp

/-! ### Python string primitives -/

/-- Python slicing `s[:n]` (by code points). -/
def strTake (s : String) (n : Nat) : String := String.mk (s.data.take n)

/-- Python slicing `s[n:]`. -/
def strDrop (s : String) (n : Nat) : String := String.mk (s.data.drop n)

/-- Helper for `str.rfind`: index of the last occurrence of `c`, scanning
with a running best-so-far accumulator. -/
def rfindAux (c : Char) : List Char → Option Nat → Nat → Option Nat
  | [], acc, _ => acc
  | x :: xs, acc, i => rfindAux c xs (if x == c then some i else acc) (i + 1)

/-- Python `s.rfind(c)`: `some` index of the last occurrence, `none` when
absent (Python returns -1). -/
def strRfind (s : String) (c : Char) : Option Nat := rfindAux c s.data none 0

/-- Contiguous-substring test on character lists. -/
def hasInfix (sub : List Char) : List Char → Bool
  | [] => sub.isEmpty
  | x :: xs => sub.isPrefixOf (x :: xs) || hasInfix sub xs

/-- Python `sub in s` substring test. -/
def strContainsB (s sub : String) : Bool := hasInfix sub.data s.data

/-- Python `s.startswith(p)` (used only in statements, not by the code). -/
def strStartsWith (s p : String) : Bool := p.data.isPrefixOf s.data

/-- Python `s.lower()` (per-code-point lowercasing; agrees with Python on
the ASCII identifiers and label names the program compares). -/
def pyLower (s : String) : String := String.mk (s.data.map Char.toLower)

/-- Whitespace as stripped by Python `str.strip()` (space, tab, newlines). -/
def isPySpace (c : Char) : Bool := c == ' ' || c == '\t' || c == '\n' || c == '\r' || c == '\x0b' || c == '\x0c'

/-- Python `str.strip()`. -/
def pyStrip (s : String) : String :=
  String.mk (((s.data.dropWhile isPySpace).reverse.dropWhile isPySpace).reverse)

/-- Concatenation of a list of strings (a Python `+=` accumulation loop). -/
def strJoin : List String → String
  | [] => ""
  | s :: rest => s ++ strJoin rest

/-- Python `", ".join(xs)` is `String.intercalate ", " xs`; we re-derive it
from `strJoin` so all rendering goes through one concatenation primitive. -/
def strIntercalate (sep : String) : List String → String
  | [] => ""
  | [s] => s
  | s :: rest => s ++ sep ++ strIntercalate sep rest

/-- Python truthiness of an optional string (`None` and `""` are falsy). -/
def truthyStr : Option String → Bool
  | none => false
  | some s => !(s == "")

/-! ### Python dict primitives (insertion-ordered association lists) -/

/-- Python `d.get(k)` / `d[k]` lookup. -/
def dictGet {β : Type} (d : List (String × β)) (k : String) : Option β :=
  (d.find? (fun p => p.1 == k)).map Prod.snd

/-- Python `d[k] = v`: replace in place when the key exists, else append. -/
def dictSet {β : Type} (d : List (String × β)) (k : String) (v : β) : List (String × β) :=
  if d.any (fun p => p.1 == k) then d.map (fun p => if p.1 == k then (k, v) else p)
  else d ++ [(k, v)]

/-- Python `del d[k]`. -/
def dictDel {β : Type} (d : List (String × β)) (k : String) : List (String × β) :=
  d.filter (fun p => !(p.1 == k))

/-! ### Number formatting -/

/-- Digit grouping for the Python format spec `{n:,}`: the input is the
reversed digit list; a comma is inserted after every third digit. -/
def commaGroupRev : List Char → List Char
  | a :: b :: c :: d :: rest => a :: b :: c :: ',' :: commaGroupRev (d :: rest)
  | ds => ds

/-- Python `f"{n:,}"` for a natural number. -/
def commaFmt (n : Nat) : String :=
  String.mk ((commaGroupRev (Nat.repr n).data.reverse).reverse)

/-! ### Truncator (`ResponseFormatter.truncate_response`, utils.py:34-56) -/

/-- The warning block appended by `truncate_response`, transcribed from the
f-string at utils.py:46-55. -/
def warningBlock (origLen limit : Nat) : String :=
  "\n---\n⚠️ **RESPONSE TRUNCATED**: Output was " ++ commaFmt origLen ++
  " characters (limit: " ++ commaFmt limit ++
  ")\n\n**To see more results:**\n- Use pagination: Increase `offset` parameter\n- Add filters: Use `list_id` or `label_filter` to filter results\n- Reduce detail: Use `detail_level=\"preview\"` instead of \"summary\" or \"detailed\"\n---\n"

/-- Model of `ResponseFormatter.truncate_response` (utils.py:34-56).  `int(limit * 0.6)`
is modelled as `limit * 6 / 10` and `last_newline > truncate_at * 0.8` as
`10 * i > 8 * truncate_at`; `rfind` returning -1 is the `none` branch. -/
def truncate_response (content : String) (limit : Nat) : String :=
  if content.length ≤ limit then content
  else
    let truncate_at := limit * 6 / 10
    let truncated := strTake content truncate_at
    let truncated2 :=
      match strRfind truncated '\n' with
      | some i => if 8 * truncate_at < 10 * i then strTake truncated i else truncated
      | none => truncated
    truncated2 ++ warningBlock content.length limit

/-- The cut position described by the spec for an over-limit response: cut
at `0.6 × limit`, backed off to the last newline of that prefix when the
newline index exceeds `0.8 ×` the cut point. -/
def truncateCut (content : String) (limit : Nat) : Nat :=
  let t := limit * 6 / 10
  match strRfind (strTake content t) '\n' with
  | some i => if 8 * t < 10 * i then i else t
  | none => t

/-! ### Paginator (`PaginationHelper.paginate_results`, utils.py:212-235) -/

structure PageResult (α : Type) where
  items : List α
  offset : Nat
  limit : Nat
  count : Nat
  total : Nat
  has_more : Bool
  next_offset : Option Nat
deriving Repr, DecidableEq

/-- Model of `PaginationHelper.paginate_results` (utils.py:212-235).  The Python
guard `total = total or len(items)` treats a supplied total of `0` (falsy)
like an absent one; `items[offset : offset+limit]` for the validated
non-negative offset/limit is drop-then-take. -/
def paginate_results {α : Type} (items : List α) (offset limit : Nat)
    (total? : Option Nat) : PageResult α :=
  let total := match total? with
    | some t => if t = 0 then items.length else t
    | none => items.length
  let paginated_items := (items.drop offset).take limit
  { items := paginated_items
    offset := offset
    limit := limit
    count := paginated_items.length
    total := total
    has_more := decide (offset + limit < total)
    next_offset := if offset + limit < total then some (offset + limit) else none }

/-! ### Multi-tier cache (cache.py) -/

/-- Model of `CacheEntry` (cache.py:7-16).  `time.time()` instants are modelled as
natural-number ticks; the TTL comparison is done over `Int` exactly as the
Python subtraction is. -/
structure CacheEntry (α : Type) where
  data : α
  timestamp : Nat
  ttl : Nat
deriving DecidableEq

/-- Model of `CacheEntry.is_valid` (cache.py:14-16): `time.time() - timestamp < ttl`. -/
def CacheEntry.is_valid {α : Type} (e : CacheEntry α) (now : Nat) : Bool :=
  decide ((now : Int) - (e.timestamp : Int) < (e.ttl : Int))

/-- The `stats` dict of `PlankaCache.__init__` (cache.py:32-39). -/
structure CacheStats where
  workspace_hits : Nat
  workspace_misses : Nat
  board_overview_hits : Nat
  board_overview_misses : Nat
  card_hits : Nat
  card_misses : Nat
deriving DecidableEq

/-- Model of `PlankaCache` (cache.py:18-39), generic over the three tier payload
types.  The two keyed tiers are insertion-ordered dicts. -/
structure PlankaCache (ω βv κ : Type) where
  workspace : Option (CacheEntry ω)
  board_overviews : List (String × CacheEntry βv)
  card_details : List (String × CacheEntry κ)
  stats : CacheStats
deriving DecidableEq

/-- Miss path of `PlankaCache.get_workspace` (cache.py:47-50): bump the
miss counter, then run the fetch; on success store a TTL-300 entry, on
failure the exception propagates with no entry stored.  The fetch is
modelled by the `Except` value its single invocation produces. -/
def PlankaCache.get_workspace_miss {ω βv κ ε : Type} (c : PlankaCache ω βv κ)
    (now : Nat) (fetch : Except ε ω) : Except ε ω × PlankaCache ω βv κ :=
  let c1 := { c with stats := { c.stats with workspace_misses := c.stats.workspace_misses + 1 } }
  match fetch with
  | Except.error e => (Except.error e, c1)
  | Except.ok d => (Except.ok d, { c1 with workspace := some ⟨d, now, 300⟩ })

/-- Model of `PlankaCache.get_workspace` (cache.py:41-50). -/
def PlankaCache.get_workspace {ω βv κ ε : Type} (c : PlankaCache ω βv κ)
    (now : Nat) (fetch : Except ε ω) : Except ε ω × PlankaCache ω βv κ :=
  match c.workspace with
  | some entry =>
    if entry.is_valid now then
      (Except.ok entry.data,
       { c with stats := { c.stats with workspace_hits := c.stats.workspace_hits + 1 } })
    else c.get_workspace_miss now fetch
  | none => c.get_workspace_miss now fetch

/-- Miss path of `PlankaCache.get_board_overview` (cache.py:60-65), TTL 180. -/
def PlankaCache.get_board_overview_miss {ω βv κ ε : Type} (c : PlankaCache ω βv κ)
    (now : Nat) (board_id : String) (fetch : Except ε βv) :
    Except ε βv × PlankaCache ω βv κ :=
  let c1 := { c with stats := { c.stats with board_overview_misses := c.stats.board_overview_misses + 1 } }
  match fetch with
  | Except.error e => (Except.error e, c1)
  | Except.ok d =>
    (Except.ok d, { c1 with board_overviews := dictSet c1.board_overviews board_id ⟨d, now, 180⟩ })

/-- Model of `PlankaCache.get_board_overview` (cache.py:52-65). -/
def PlankaCache.get_board_overview {ω βv κ ε : Type} (c : PlankaCache ω βv κ)
    (now : Nat) (board_id : String) (fetch : Except ε βv) :
    Except ε βv × PlankaCache ω βv κ :=
  match dictGet c.board_overviews board_id with
  | some entry =>
    if entry.is_valid now then
      (Except.ok entry.data,
       { c with stats := { c.stats with board_overview_hits := c.stats.board_overview_hits + 1 } })
    else c.get_board_overview_miss now board_id fetch
  | none => c.get_board_overview_miss now board_id fetch

/-- Miss path of `PlankaCache.get_card` (cache.py:75-80), TTL 60. -/
def PlankaCache.get_card_miss {ω βv κ ε : Type} (c : PlankaCache ω βv κ)
    (now : Nat) (card_id : String) (fetch : Except ε κ) :
    Except ε κ × PlankaCache ω βv κ :=
  let c1 := { c with stats := { c.stats with card_misses := c.stats.card_misses + 1 } }
  match fetch with
  | Except.error e => (Except.error e, c1)
  | Except.ok d =>
    (Except.ok d, { c1 with card_details := dictSet c1.card_details card_id ⟨d, now, 60⟩ })

/-- Model of `PlankaCache.get_card` (cache.py:67-80). -/
def PlankaCache.get_card {ω βv κ ε : Type} (c : PlankaCache ω βv κ)
    (now : Nat) (card_id : String) (fetch : Except ε κ) :
    Except ε κ × PlankaCache ω βv κ :=
  match dictGet c.card_details card_id with
  | some entry =>
    if entry.is_valid now then
      (Except.ok entry.data,
       { c with stats := { c.stats with card_hits := c.stats.card_hits + 1 } })
    else c.get_card_miss now card_id fetch
  | none => c.get_card_miss now card_id fetch

/-- Model of `PlankaCache.invalidate_workspace` (cache.py:82-84). -/
def PlankaCache.invalidate_workspace {ω βv κ : Type} (c : PlankaCache ω βv κ) :
    PlankaCache ω βv κ :=
  { c with workspace := none }

/-- Model of `PlankaCache.invalidate_board` (cache.py:86-89): guarded `del`. -/
def PlankaCache.invalidate_board {ω βv κ : Type} (c : PlankaCache ω βv κ)
    (board_id : String) : PlankaCache ω βv κ :=
  if c.board_overviews.any (fun p => p.1 == board_id) then
    { c with board_overviews := dictDel c.board_overviews board_id }
  else c

/-- Model of `PlankaCache.invalidate_card` (cache.py:91-94): guarded `del`. -/
def PlankaCache.invalidate_card {ω βv κ : Type} (c : PlankaCache ω βv κ)
    (card_id : String) : PlankaCache ω βv κ :=
  if c.card_details.any (fun p => p.1 == card_id) then
    { c with card_details := dictDel c.card_details card_id }
  else c

/-- Model of `PlankaCache.cleanup_card_cache` (cache.py:96-104): when the card tier
exceeds 300 entries, keep the 100 most recent by timestamp.  Python
`sorted` is a stable ascending sort, modelled by `List.mergeSort`;
`sorted_entries[-100:]` keeps the last 100 of the sorted list. -/
def PlankaCache.cleanup_card_cache {ω βv κ : Type} (c : PlankaCache ω βv κ) :
    PlankaCache ω βv κ :=
  if 300 < c.card_details.length then
    let sorted_entries :=
      c.card_details.mergeSort (fun a b => decide (a.2.timestamp ≤ b.2.timestamp))
    { c with card_details := sorted_entries.drop (c.card_details.length - 100) }
  else c

/-! ### Record model (duck-typed dicts as typed records; every `Option`
field mirrors a `dict.get` with the defaults applied at its call sites;
fields the program never reads are not modelled) -/

structure Task where
  id : Option String
  name : Option String
  isCompleted : Option Bool
deriving DecidableEq

structure TaskList where
  name : Option String
  tasks : Option (List Task)
deriving DecidableEq

structure CommentRec where
  userId : Option String
  createdAt : Option String
  text : Option String
deriving DecidableEq

structure Attachment where
  id : Option String
  name : Option String
deriving DecidableEq

/-- A card record.  `position` is numeric in the remote system and is only
interpolated into output, so it is carried in rendered form. -/
structure Card where
  id : Option String
  name : Option String
  listId : Option String
  boardId : Option String
  dueDate : Option String
  createdAt : Option String
  updatedAt : Option String
  position : Option String
  description : Option String
  memberIds : Option (List String)
  taskLists : Option (List TaskList)
  comments : Option (List CommentRec)
  attachments : Option (List Attachment)
deriving DecidableEq

/-- A list record from board detail (`lst["id"]` is a mandatory access in
the map comprehensions, so `id` is a required field). -/
structure ListRec where
  id : String
  name : Option String
deriving DecidableEq

structure LabelRec where
  id : String
  name : Option String
  color : Option String
deriving DecidableEq

structure UserRec where
  id : String
  name : Option String
deriving DecidableEq

/-- A `cardLabels` join-table row; both fields are read with `.get`. -/
structure CardLabelAssoc where
  cardId : Option String
  labelId : Option String
deriving DecidableEq

/-- The formatter `context` bundle (always fully populated by handlers,
each map possibly missing any id). -/
structure Context where
  lists : List (String × ListRec)
  labels : List (String × LabelRec)
  users : List (String × UserRec)
  card_labels : List (String × List String)
  board_name : Option String
deriving DecidableEq

/-! ### Formatter (`ResponseFormatter`, utils.py:30-204) -/

/-- Lookup chain of the list name with its defaults (utils.py:75). -/
def lookupListName (ctx : Context) (listId : Option String) : String :=
  ((listId.bind (dictGet ctx.lists)).bind (fun l => l.name)).getD "Unknown List"

/-- Lookup chain of a label name, defaulting to the empty string (utils.py:78). -/
def lookupLabelName (ctx : Context) (lid : String) : String :=
  ((dictGet ctx.labels lid).bind (fun l => l.name)).getD ""

/-- Lookup chain of a user name, defaulting to the empty string (utils.py:99). -/
def lookupUserName (ctx : Context) (uid : String) : String :=
  ((dictGet ctx.users uid).bind (fun u => u.name)).getD ""

/-- Association lookup by card id with default empty list (utils.py:77); a missing card id misses the map. -/
def assocLabelIds (m : List (String × List String)) (cardId : Option String) : List String :=
  match cardId with
  | none => []
  | some i => (dictGet m i).getD []

/-- Python comma-join of a list, rendering the literal None when the list is empty (utils.py:85). -/
def joinOrNone (xs : List String) : String :=
  if xs.isEmpty then "None" else strIntercalate ", " xs

/-- Model of `ResponseFormatter.format_task_progress` (utils.py:58-70). -/
def format_task_progress (task_lists : List TaskList) : String :=
  let tasks := (task_lists.map (fun tl => tl.tasks.getD [])).flatten
  let total_tasks := tasks.length
  let completed_tasks := (tasks.filter (fun t => t.isCompleted.getD false)).length
  if total_tasks = 0 then "0/0"
  else Nat.repr completed_tasks ++ "/" ++ Nat.repr total_tasks

/-- Model of `ResponseFormatter.format_card_preview` (utils.py:72-89). -/
def format_card_preview (card : Card) (context : Context) : String :=
  let list_name := lookupListName context card.listId
  let card_label_ids := assocLabelIds context.card_labels card.id
  let labels := card_label_ids.map (lookupLabelName context)
  let task_progress := format_task_progress (card.taskLists.getD [])
  "- **" ++ card.name.getD "Untitled" ++ "** (ID: `" ++ card.id.getD "N/A" ++ "`)\n" ++
  "  - List: " ++ list_name ++ "\n" ++
  "  - Labels: " ++ joinOrNone labels ++ "\n" ++
  "  - Due: " ++ card.dueDate.getD "No due date" ++ "\n" ++
  "  - Tasks: " ++ task_progress ++ "\n" ++
  "  - Comments: " ++ Nat.repr (card.comments.getD []).length ++ "\n" ++
  "  - Attachments: " ++ Nat.repr (card.attachments.getD []).length

/-- Model of `ResponseFormatter.format_card_summary` (utils.py:91-118). -/
def format_card_summary (card : Card) (context : Context) : String :=
  let list_name := lookupListName context card.listId
  let card_label_ids := assocLabelIds context.card_labels card.id
  let labels := card_label_ids.map (lookupLabelName context)
  let members := (card.memberIds.getD []).map (lookupUserName context)
  let task_progress := format_task_progress (card.taskLists.getD [])
  let description := card.description.getD ""
  let desc_snippet :=
    if 100 < description.length then strTake description 100 ++ "..." else description
  "### " ++ card.name.getD "Untitled" ++ "\n" ++
  "**ID**: `" ++ card.id.getD "N/A" ++ "`\n" ++
  "**List**: " ++ list_name ++ "\n" ++
  "**Labels**: " ++ joinOrNone labels ++ "\n" ++
  "**Members**: " ++ joinOrNone members ++ "\n" ++
  "**Due Date**: " ++ card.dueDate.getD "No due date" ++ "\n" ++
  "**Created**: " ++ card.createdAt.getD "Unknown" ++ "\n" ++
  "**Tasks**: " ++ task_progress ++ "\n" ++
  "**Comments**: " ++ Nat.repr (card.comments.getD []).length ++ "\n" ++
  "**Attachments**: " ++ Nat.repr (card.attachments.getD []).length ++ "\n\n" ++
  "**Description**: " ++ (if desc_snippet == "" then "(No description)" else desc_snippet) ++ "\n"

/-- One task line of the detailed renderer (utils.py:158-160). -/
def renderTask (t : Task) : String :=
  "- " ++ (if t.isCompleted.getD false then "[x]" else "[ ]") ++ " " ++
  t.name.getD "Unnamed task" ++ " (ID: `" ++ t.id.getD "N/A" ++ "`)\n"

/-- One task-list section of the detailed renderer (utils.py:156-160). -/
def renderTaskList (tl : TaskList) : String :=
  "\n**" ++ tl.name.getD "Tasks" ++ "**:\n" ++ strJoin ((tl.tasks.getD []).map renderTask)

/-- One comment line of the detailed renderer (utils.py:167-170); a missing
`userId` becomes the literal key `"Unknown"`, which is then resolved
against the users map. -/
def renderComment (ctx : Context) (com : CommentRec) : String :=
  let user_id := com.userId.getD "Unknown"
  let user_name := ((dictGet ctx.users user_id).bind (fun u => u.name)).getD "Unknown User"
  "- **" ++ user_name ++ "** (" ++ com.createdAt.getD "Unknown" ++ "): " ++
  com.text.getD "" ++ "\n"

/-- One attachment line of the detailed renderer (utils.py:177-178). -/
def renderAttachment (a : Attachment) : String :=
  "- " ++ a.name.getD "Unnamed" ++ " (ID: `" ++ a.id.getD "N/A" ++ "`)\n"

/-- The part of `format_card_detailed` (utils.py:120-182) before the
description interpolation; split out so length reasoning can isolate the
description. -/
def detailedPre (card : Card) (context : Context) : String :=
  let list_name := lookupListName context card.listId
  let card_label_ids := assocLabelIds context.card_labels card.id
  let labels := card_label_ids.map (lookupLabelName context)
  let members := (card.memberIds.getD []).map (lookupUserName context)
  "# " ++ card.name.getD "Untitled" ++ "\n\n" ++
  "**ID**: `" ++ card.id.getD "N/A" ++ "`\n" ++
  "**List**: " ++ list_name ++ " (ID: `" ++ card.listId.getD "N/A" ++ "`)\n" ++
  "**Board**: " ++ context.board_name.getD "Unknown" ++ "\n\n" ++
  "## Details\n" ++
  "- **Due Date**: " ++ card.dueDate.getD "No due date" ++ "\n" ++
  "- **Created**: " ++ card.createdAt.getD "Unknown" ++ "\n" ++
  "- **Updated**: " ++ card.updatedAt.getD "Unknown" ++ "\n" ++
  "- **Position**: " ++ card.position.getD "N/A" ++ "\n\n" ++
  "## Members\n" ++
  (if members.isEmpty then "(No members assigned)" else strIntercalate ", " members) ++
  "\n\n## Labels\n" ++
  (if labels.isEmpty then "(No labels)" else strIntercalate ", " labels) ++
  "\n\n## Description\n"

/-- The part of `format_card_detailed` after the description: the Tasks,
Comments and Attachments sections (utils.py:152-182). -/
def detailedPost (card : Card) (context : Context) : String :=
  let task_lists := card.taskLists.getD []
  let comments := card.comments.getD []
  let attachments := card.attachments.getD []
  "\n\n## Tasks\n" ++
  (if task_lists.isEmpty then "(No tasks)\n" else strJoin (task_lists.map renderTaskList)) ++
  "\n## Comments\n" ++
  (if comments.isEmpty then "(No comments)\n"
   else strJoin (comments.map (renderComment context))) ++
  "\n## Attachments\n" ++
  (if attachments.isEmpty then "(No attachments)\n"
   else strJoin (attachments.map renderAttachment))

/-- Model of `ResponseFormatter.format_card_detailed` (utils.py:120-182). -/
def format_card_detailed (card : Card) (context : Context) : String :=
  detailedPre card context ++ card.description.getD "(No description)" ++
  detailedPost card context

inductive DetailLevel where
  | preview
  | summary
  | detailed
deriving DecidableEq

/-- One block of the list renderer with its separator (utils.py:196-202). -/
def renderCardBlock (detail_level : DetailLevel) (context : Context) (card : Card) : String :=
  match detail_level with
  | .preview => format_card_preview card context ++ "\n\n"
  | .summary => format_card_summary card context ++ "\n"
  | .detailed => format_card_detailed card context ++ "\n---\n\n"

/-- Model of `ResponseFormatter.format_card_list_markdown` (utils.py:184-204). -/
def format_card_list_markdown (cards : List Card) (context : Context)
    (detail_level : DetailLevel) : String :=
  if cards.isEmpty then "No cards found matching the criteria."
  else
    pyStrip ("# Cards (" ++ Nat.repr cards.length ++ " found)\n\n" ++
      strJoin (cards.map (renderCardBlock detail_level context)))

/-! ### Error rendering (`handle_api_error`, utils.py:8-26) -/

/-- The exception classes the handlers distinguish. -/
inductive PyErr where
  | httpStatus (status : Nat)
  | timeout
  | connect
  | runtimeError (msg : String)
  | keyError (key : String)
  | nameError (n : String)
deriving DecidableEq

/-- Model of `handle_api_error` (utils.py:8-26): the str form of a KeyError renders the key
in quotes; the two `RuntimeError`s the handlers construct carry their
message verbatim. -/
def handle_api_error : PyErr → String
  | .httpStatus status =>
    if status = 401 then
      "Error: Invalid API credentials. Check your access token or API key in the .env file."
    else if status = 403 then
      "Error: You don\x27t have permission to access this resource. You may need board membership."
    else if status = 404 then
      "Error: Resource not found. Check that the ID is correct and the resource exists."
    else if status = 429 then
      "Error: Rate limit exceeded. Wait a moment before trying again."
    else "Error: API request failed (HTTP " ++ Nat.repr status ++ "). Please try again."
  | .timeout => "Error: Request timed out. The Planka server may be slow or unreachable."
  | .connect => "Error: Cannot connect to Planka server. Check the PLANKA_BASE_URL in your .env file."
  | .runtimeError msg => "Error: Unexpected error - RuntimeError: " ++ msg
  | .keyError key => "Error: Unexpected error - KeyError: \x27" ++ key ++ "\x27"
  | .nameError n => "Error: Unexpected error - NameError: name \x27" ++ n ++ "\x27 is not defined"

/-! ### JSON serialization (`json.dumps(..., indent=2)`); values are a
standard JSON tree, numbers carried in rendered form -/

inductive JVal where
  | jstr (s : String)
  | jnum (s : String)
  | jbool (b : Bool)
  | jnull
  | jarr (xs : List JVal)
  | jobj (fields : List (String × JVal))

def jsonEscapeChar (c : Char) : String :=
  if c = '"' then "\\\""
  else if c = '\\' then "\\\\"
  else if c = '\n' then "\\n"
  else if c = '\t' then "\\t"
  else if c = '\r' then "\\r"
  else String.mk [c]

def jsonQuote (s : String) : String :=
  "\"" ++ strJoin (s.data.map jsonEscapeChar) ++ "\""

def jIndent (n : Nat) : String := String.mk (List.replicate n ' ')

mutual

/-- Model of `json.dumps(v, indent=2)` at nesting indent `ind`. -/
def dumpJ (ind : Nat) : JVal → String
  | .jstr s => jsonQuote s
  | .jnum s => s
  | .jbool b => if b then "true" else "false"
  | .jnull => "null"
  | .jarr xs =>
    if xs.isEmpty then "[]"
    else "[\n" ++ dumpArr (ind + 2) xs ++ "\n" ++ jIndent ind ++ "]"
  | .jobj fs =>
    if fs.isEmpty then "\x7b\x7d"
    else "\x7b\n" ++ dumpObj (ind + 2) fs ++ "\n" ++ jIndent ind ++ "\x7d"

def dumpArr (ind : Nat) : List JVal → String
  | [] => ""
  | [x] => jIndent ind ++ dumpJ ind x
  | x :: y :: rest => jIndent ind ++ dumpJ ind x ++ ",\n" ++ dumpArr ind (y :: rest)

def dumpObj (ind : Nat) : List (String × JVal) → String
  | [] => ""
  | [(k, v)] => jIndent ind ++ jsonQuote k ++ ": " ++ dumpJ ind v
  | (k, v) :: y :: rest =>
    jIndent ind ++ jsonQuote k ++ ": " ++ dumpJ ind v ++ ",\n" ++ dumpObj ind (y :: rest)

end

/-- A present field serializes; an absent dict key is omitted. -/
def jfield (k : String) (v : Option JVal) : List (String × JVal) :=
  match v with
  | some j => [(k, j)]
  | none => []

def jsonOfTask (t : Task) : JVal :=
  .jobj (jfield "id" (t.id.map .jstr) ++ jfield "name" (t.name.map .jstr) ++
    jfield "isCompleted" (t.isCompleted.map .jbool))

def jsonOfTaskList (tl : TaskList) : JVal :=
  .jobj (jfield "name" (tl.name.map .jstr) ++
    jfield "tasks" (tl.tasks.map (fun ts => .jarr (ts.map jsonOfTask))))

def jsonOfComment (c : CommentRec) : JVal :=
  .jobj (jfield "userId" (c.userId.map .jstr) ++
    jfield "createdAt" (c.createdAt.map .jstr) ++ jfield "text" (c.text.map .jstr))

def jsonOfAttachment (a : Attachment) : JVal :=
  .jobj (jfield "id" (a.id.map .jstr) ++ jfield "name" (a.name.map .jstr))

/-- Serialization of a card record; the field order of the remote response
is modelled canonically. -/
def jsonOfCard (c : Card) : JVal :=
  .jobj (jfield "id" (c.id.map .jstr) ++ jfield "name" (c.name.map .jstr) ++
    jfield "listId" (c.listId.map .jstr) ++ jfield "boardId" (c.boardId.map .jstr) ++
    jfield "dueDate" (c.dueDate.map .jstr) ++ jfield "createdAt" (c.createdAt.map .jstr) ++
    jfield "updatedAt" (c.updatedAt.map .jstr) ++ jfield "position" (c.position.map .jnum) ++
    jfield "description" (c.description.map .jstr) ++
    jfield "memberIds" (c.memberIds.map (fun ms => .jarr (ms.map .jstr))) ++
    jfield "taskLists" (c.taskLists.map (fun ts => .jarr (ts.map jsonOfTaskList))) ++
    jfield "comments" (c.comments.map (fun cs => .jarr (cs.map jsonOfComment))) ++
    jfield "attachments" (c.attachments.map (fun as2 => .jarr (as2.map jsonOfAttachment))))

def jsonOfListRec (l : ListRec) : JVal :=
  .jobj ([("id", JVal.jstr l.id)] ++ jfield "name" (l.name.map .jstr))

def jsonOfLabelRec (l : LabelRec) : JVal :=
  .jobj ([("id", JVal.jstr l.id)] ++ jfield "name" (l.name.map .jstr) ++
    jfield "color" (l.color.map .jstr))

def jsonOfUserRec (u : UserRec) : JVal :=
  .jobj ([("id", JVal.jstr u.id)] ++ jfield "name" (u.name.map .jstr))

/-! ### Tool inputs (models.py; pydantic bounds appear as hypotheses) -/

inductive ResponseFormat where
  | markdown
  | json
deriving DecidableEq

structure GetWorkspaceInput where
  response_format : ResponseFormat
deriving DecidableEq

structure ListCardsInput where
  board_id : String
  list_id : Option String
  label_filter : Option String
  limit : Nat
  offset : Nat
  response_format : ResponseFormat
  detail_level : DetailLevel
deriving DecidableEq

structure GetCardInput where
  card_id : String
  response_format : ResponseFormat
deriving DecidableEq

structure FindAndGetCardInput where
  query : String
  board_id : Option String
  response_format : ResponseFormat
deriving DecidableEq

/-! ### Remote responses (parsed record trees, as the handlers read them) -/

structure BoardItem where
  id : Option String
  name : Option String
deriving DecidableEq

structure BoardIncluded where
  lists : List ListRec
  labels : List LabelRec
  users : List UserRec
  cardLabels : List CardLabelAssoc
  cards : List Card
deriving DecidableEq

structure BoardDetail where
  item : Option BoardItem
  included : Option BoardIncluded
deriving DecidableEq

def emptyBoardItem : BoardItem := ⟨none, none⟩

def emptyIncluded : BoardIncluded := ⟨[], [], [], [], []⟩

def emptyCard : Card :=
  ⟨none, none, none, none, none, none, none, none, none, none, none, none, none⟩

/-- The card-detail response of `GET cards/{id}` as read by the handlers:
`item` plus the `included` collections. -/
structure CardResponse where
  item : Option Card
  taskLists : List TaskList
  comments : List CommentRec
  attachments : List Attachment
  labels : List LabelRec
  users : List UserRec
  cardLabels : List CardLabelAssoc
deriving DecidableEq

/-- The aggregated workspace snapshot (the value `fetch_workspace_data`
produces and the workspace cache tier stores); board/list/label map values
keep only the fields the read tools render. -/
structure WsProject where
  id : Option String
  name : Option String
deriving DecidableEq

structure WsBoard where
  name : Option String
deriving DecidableEq

structure WorkspaceSnapshot where
  projects : List WsProject
  boards : List (String × WsBoard)
  lists : List (String × ListRec)
  labels : List (String × LabelRec)
  users : List (String × UserRec)
  card_labels : List (String × List String)
deriving DecidableEq

def emptyWorkspace : WorkspaceSnapshot := ⟨[], [], [], [], [], []⟩

/-! ### Context-map construction shared by the handlers -/

/-- Map comprehension keyed by id (cards.py:41-43); a later duplicate id overwrites in place. -/
def buildListsMap (xs : List ListRec) : List (String × ListRec) :=
  xs.foldl (fun m lst => dictSet m lst.id lst) []

def buildLabelsMap (xs : List LabelRec) : List (String × LabelRec) :=
  xs.foldl (fun m lbl => dictSet m lbl.id lbl) []

def buildUsersMap (xs : List UserRec) : List (String × UserRec) :=
  xs.foldl (fun m usr => dictSet m usr.id usr) []

/-- The `card_labels_map` loop (cards.py:47-54): rows with a falsy cardId
or labelId are skipped; others append the labelId to the cardId bucket. -/
def buildCardLabelsMap (assocs : List CardLabelAssoc) : List (String × List String) :=
  assocs.foldl
    (fun m cl =>
      if truthyStr cl.cardId && truthyStr cl.labelId then
        match dictGet m (cl.cardId.getD "") with
        | some ids => dictSet m (cl.cardId.getD "") (ids ++ [cl.labelId.getD ""])
        | none => m ++ [(cl.cardId.getD "", [cl.labelId.getD ""])]
      else m)
    []

/-! ### planka_list_cards (handlers/cards.py:12-113).  The remote call
result is passed in as `bd`; `clientInit` models whether
`instances.api_client` has been constructed.  Remote-call exceptions take
the `handle_api_error` path and are not modelled further.  The module
header of handlers/cards.py (lines 1-8) never imports `json`, yet
cards.py:101 and cards.py:190 call `json.dumps`; Python resolves the
callee name `json` before evaluating any argument, so every
`response_format=json` invocation raises
`NameError: name \x27json\x27 is not defined` inside the try block
(before `board["id"]` at cards.py:103 is ever reached) and the handler
returns the `handle_api_error` rendering of that NameError, without
passing through `truncate_response`. -/

/-- The filter pipeline of `planka_list_cards` (cards.py:64-80): exact
`list_id` match when the parameter is truthy, then case-insensitive
substring match of `label_filter` against resolved label names. -/
def listCardsFiltered (bd : BoardDetail) (params : ListCardsInput) : List Card :=
  let included := bd.included.getD emptyIncluded
  let labels_map := buildLabelsMap included.labels
  let card_labels_map := buildCardLabelsMap included.cardLabels
  let cards := included.cards
  let cards1 :=
    match params.list_id with
    | some lid => if lid == "" then cards else cards.filter (fun c => c.listId == some lid)
    | none => cards
  match params.label_filter with
  | some lf =>
    if lf == "" then cards1
    else
      let label_lower := pyLower lf
      cards1.filter (fun c =>
        (assocLabelIds card_labels_map c.id).any (fun label_id =>
          strContainsB (pyLower (((dictGet labels_map label_id).bind (fun l => l.name)).getD ""))
            label_lower))
  | none => cards1

/-- The context bundle `planka_list_cards` builds (cards.py:40-62). -/
def listCardsContext (bd : BoardDetail) : Context :=
  let board := bd.item.getD emptyBoardItem
  let included := bd.included.getD emptyIncluded
  { lists := buildListsMap included.lists
    labels := buildLabelsMap included.labels
    users := buildUsersMap included.users
    card_labels := buildCardLabelsMap included.cardLabels
    board_name := some (board.name.getD "Unknown Board") }

/-- Model of `planka_list_cards` (cards.py:12-113).  In the
`response_format=json` arm the code (cards.py:101) evaluates
`json.dumps(...)`; the name `json` is unbound in handlers/cards.py, so
the arm raises NameError before evaluating any argument and the
`except Exception` handler (cards.py:112-113) returns the error string
untruncated. -/
def planka_list_cards (clientInit : Bool) (bd : BoardDetail)
    (params : ListCardsInput) : String :=
  if !clientInit then handle_api_error (.runtimeError "API client not initialized")
  else
    let board := bd.item.getD emptyBoardItem
    let context := listCardsContext bd
    let cards := listCardsFiltered bd params
    let paginated := paginate_results cards params.offset params.limit none
    match params.response_format with
    | .markdown =>
      let content := format_card_list_markdown paginated.items context params.detail_level
      let content2 :=
        if paginated.has_more then
          content ++ "\n\n---\n**Pagination**: Showing " ++ Nat.repr paginated.count ++
          " of " ++ Nat.repr paginated.total ++ " cards. " ++ "Use offset=" ++
          (match paginated.next_offset with
           | some n => Nat.repr n
           | none => "None") ++ " to see more.\n"
        else content
      truncate_response content2 25000
    | .json => handle_api_error (.nameError "json")

/-! ### planka_get_workspace (handlers/workspace.py:94-149).  The snapshot
the cache returns is passed in as `data`; `cacheInit` models whether
`instances.cache` has been constructed — when it has not, the handler
raises (workspace.py:115-116) instead of returning an error string. -/

def jsonOfWorkspace (data : WorkspaceSnapshot) : JVal :=
  .jobj [("projects", .jarr (data.projects.map (fun p =>
      .jobj (jfield "id" (p.id.map .jstr) ++ jfield "name" (p.name.map .jstr))))),
    ("boards", .jobj (data.boards.map (fun bp =>
      (bp.1, .jobj (jfield "name" (bp.2.name.map .jstr)))))),
    ("lists", .jobj (data.lists.map (fun lp => (lp.1, jsonOfListRec lp.2)))),
    ("labels", .jobj (data.labels.map (fun lp => (lp.1, jsonOfLabelRec lp.2)))),
    ("users", .jobj (data.users.map (fun up => (up.1, jsonOfUserRec up.2)))),
    ("card_labels", .jobj (data.card_labels.map (fun cp =>
      (cp.1, .jarr (cp.2.map .jstr)))))]

/-- The markdown rendering of the workspace (workspace.py:124-144). -/
def renderWorkspaceMarkdown (data : WorkspaceSnapshot) : String :=
  "# Planka Workspace\n\n" ++
  "## Projects\n" ++
  strJoin (data.projects.map (fun p =>
    "- **" ++ p.name.getD "Unnamed" ++ "** (ID: `" ++ p.id.getD "N/A" ++ "`)\n")) ++
  "\n## Boards\n" ++
  strJoin (data.boards.map (fun bp =>
    "- **" ++ bp.2.name.getD "Unnamed" ++ "** (ID: `" ++ bp.1 ++ "`)\n")) ++
  "\n## Lists\n" ++
  strJoin (data.lists.map (fun lp =>
    "- **" ++ lp.2.name.getD "Unnamed" ++ "** (ID: `" ++ lp.1 ++ "`)\n")) ++
  "\n## Labels\n" ++
  strJoin (data.labels.map (fun lp =>
    "- **" ++ lp.2.name.getD "Unnamed" ++ "** (Color: " ++ lp.2.color.getD "N/A" ++
    ", ID: `" ++ lp.1 ++ "`)\n")) ++
  "\n## Users\n" ++
  strJoin (data.users.map (fun up =>
    "- **" ++ up.2.name.getD "Unnamed" ++ "** (ID: `" ++ up.1 ++ "`)\n"))

/-- The post-initialization body of `planka_get_workspace`
(workspace.py:118-146). -/
def planka_get_workspace_render (data : WorkspaceSnapshot)
    (params : GetWorkspaceInput) : String :=
  let content :=
    match params.response_format with
    | .json => dumpJ 0 (jsonOfWorkspace data)
    | .markdown => renderWorkspaceMarkdown data
  truncate_response content 25000

/-- Model of `planka_get_workspace` (workspace.py:94-149): unlike every other tool,
an uninitialized cache RAISES a `RuntimeError` (workspace.py:115-116,
outside the try block) rather than returning an error string. -/
def planka_get_workspace (cacheInit : Bool) (data : WorkspaceSnapshot)
    (params : GetWorkspaceInput) : Except PyErr String :=
  if !cacheInit then Except.error (.runtimeError "Cache not initialized")
  else Except.ok (planka_get_workspace_render data params)

/-! ### planka_get_card (handlers/cards.py:115-195) -/

/-- The merge of the included collections into the card record
(cards.py:141-147); the `_included_*` keys live in `CardResponse`. -/
def mergedCard (resp : CardResponse) : Card :=
  { resp.item.getD emptyCard with
    taskLists := some resp.taskLists
    comments := some resp.comments
    attachments := some resp.attachments }

/-- The context bundle `planka_get_card` builds (cards.py:153-185):
included labels/users/cardLabels override the workspace maps only when
non-empty. -/
def getCardContext (resp : CardResponse) (workspace : WorkspaceSnapshot) : Context :=
  let labels_map :=
    let m := buildLabelsMap resp.labels
    if m.isEmpty then workspace.labels else m
  let users_map :=
    let m := buildUsersMap resp.users
    if m.isEmpty then workspace.users else m
  let card_labels_map :=
    if resp.cardLabels.isEmpty then workspace.card_labels
    else buildCardLabelsMap resp.cardLabels
  { lists := workspace.lists
    labels := labels_map
    users := users_map
    card_labels := card_labels_map
    board_name := some ((((resp.item.getD emptyCard).boardId.bind
      (dictGet workspace.boards)).bind (fun b => b.name)).getD "Unknown Board") }

/-- Model of `planka_get_card` (cards.py:115-195).  The markdown arm
formats the merged card and truncates (cards.py:188, 192); the
`response_format=json` arm evaluates `json.dumps(card, indent=2)` at
cards.py:190, but the name `json` is unbound in handlers/cards.py (it is
never imported, lines 1-8), so the arm raises NameError before any argument is
evaluated; the `except Exception` handler (cards.py:194-195) then returns
the `handle_api_error` rendering of that NameError, and
`truncate_response` (cards.py:192) is never reached on that path. -/
def planka_get_card (initOk : Bool) (resp : CardResponse)
    (workspace : WorkspaceSnapshot) (params : GetCardInput) : String :=
  if !initOk then handle_api_error (.runtimeError "API client or Cache not initialized")
  else
    let card := mergedCard resp
    let context := getCardContext resp workspace
    match params.response_format with
    | .markdown => truncate_response (format_card_detailed card context) 25000
    | .json => handle_api_error (.nameError "json")

/-! ### planka_find_and_get_card (handlers/search.py:15-128).  Remote
lookups are modelled by the functions `boardFetch`/`cardFetch`; NOTE: no
branch of this tool applies `truncate_response`. -/

/-- The search predicate (search.py:48-52): case-insensitive substring
match of the query against name or description. -/
def cardMatches (query_lower : String) (c : Card) : Bool :=
  strContainsB (pyLower (c.name.getD "")) query_lower ||
  strContainsB (pyLower (c.description.getD "")) query_lower

/-- One line group of the multi-match listing (search.py:114-119). -/
def renderMatchLine (ws : WorkspaceSnapshot) (card : Card) : String :=
  let list_name := ((card.listId.bind (dictGet ws.lists)).bind (fun l => l.name)).getD
    "Unknown List"
  let board_name := ((card.boardId.bind (dictGet ws.boards)).bind (fun b => b.name)).getD
    "Unknown Board"
  "- **" ++ card.name.getD "Untitled" ++ "** (ID: `" ++ card.id.getD "" ++ "`)\n" ++
  "  - Board: " ++ board_name ++ "\n" ++
  "  - List: " ++ list_name ++ "\n\n"

/-- Model of `planka_find_and_get_card` (search.py:15-128).  The mandatory
id accesses (search.py:76,117) raise `KeyError` when the id is missing,
which the handler converts to the generic error string. -/
def planka_find_and_get_card (initOk : Bool) (ws : WorkspaceSnapshot)
    (boardFetch : String → BoardDetail) (cardFetch : String → CardResponse)
    (params : FindAndGetCardInput) : String :=
  if !initOk then handle_api_error (.runtimeError "API client or Cache not initialized")
  else
    let query_lower := pyLower params.query
    let matching_cards :=
      if truthyStr params.board_id then
        ((boardFetch (params.board_id.getD "")).included.getD emptyIncluded).cards.filter
          (cardMatches query_lower)
      else
        (ws.boards.map (fun bp =>
          ((boardFetch bp.1).included.getD emptyIncluded).cards.filter
            (cardMatches query_lower))).flatten
    match matching_cards with
    | [] => "No cards found matching query: \x27" ++ params.query ++ "\x27"
    | [card] =>
      match card.id with
      | none => handle_api_error (.keyError "id")
      | some cid =>
        let resp := cardFetch cid
        let full_card0 := resp.item.getD emptyCard
        let context : Context :=
          { lists := ws.lists
            labels := buildLabelsMap resp.labels
            users := buildUsersMap resp.users
            card_labels := buildCardLabelsMap resp.cardLabels
            board_name := some (((full_card0.boardId.bind (dictGet ws.boards)).bind
              (fun b => b.name)).getD "Unknown Board") }
        let full_card :=
          { full_card0 with
            taskLists := some resp.taskLists
            comments := some resp.comments
            attachments := some resp.attachments }
        match params.response_format with
        | .markdown => format_card_detailed full_card context
        | .json => dumpJ 0 (jsonOfCard full_card)
    | _ =>
      let shown := matching_cards.take 10
      if shown.all (fun c => c.id.isSome) then
        "# Found " ++ Nat.repr matching_cards.length ++ " matching cards\n\n" ++
        strJoin (shown.map (renderMatchLine ws)) ++
        (if 10 < matching_cards.length then
          "\n... and " ++ Nat.repr (matching_cards.length - 10) ++ " more cards.\n"
         else "") ++
        "\n**Use planka_get_card with a specific card ID to see full details.**"
      else handle_api_error (.keyError "id")

/-! ### Concrete inputs used by counterexamples and witnesses -/

/-- A card whose only label association points at a label id that is
absent from the labels map. -/
def c6card : Card := { emptyCard with id := some "c1", name := some "T" }

def c6ctx : Context := ⟨[], [], [], [("c1", ["l1"])], none⟩

/-- A board with three cards, used with `limit = 2` to expose the header
count of the list renderer. -/
def c7bd : BoardDetail :=
  ⟨some ⟨some "b1", some "B"⟩,
   some ⟨[], [], [], [],
     [{ emptyCard with id := some "ca", name := some "A" },
      { emptyCard with id := some "cb", name := some "B" },
      { emptyCard with id := some "cc", name := some "C" }]⟩⟩

def c7params : ListCardsInput :=
  ⟨"b1", none, none, 2, 0, ResponseFormat.markdown, DetailLevel.preview⟩

/-- A small, ordinary board-detail response (one card); with
`response_format=json` the handler still fails on the unbound name
`json`. -/
def c8bd : BoardDetail :=
  ⟨none, some ⟨[], [], [], [], [{ emptyCard with id := some "ca", name := some "A" }]⟩⟩

def c8params : ListCardsInput :=
  ⟨"b1", none, none, 50, 0, ResponseFormat.json, DetailLevel.preview⟩

/-- A 26000-character description, longer than the truncation limit. -/
def hugeDescription : String := String.mk (List.replicate 26000 'a')

def c3card : Card :=
  { emptyCard with id := some "c9", name := some "T", description := some hugeDescription }

def c3bd : BoardDetail := ⟨none, some ⟨[], [], [], [], [c3card]⟩⟩

def c3resp : CardResponse := ⟨some c3card, [], [], [], [], [], []⟩

def c3params : FindAndGetCardInput := ⟨"t", some "b1", ResponseFormat.markdown⟩

def c3boardFetch : String → BoardDetail := fun _ => c3bd

def c3cardFetch : String → CardResponse := fun _ => c3resp

/-- The merged card the search handler builds for `c3resp`. -/
def c3full : Card :=
  { c3card with taskLists := some [], comments := some [], attachments := some [] }

/-- The context the search handler builds for `c3resp` over an empty
workspace. -/
def c3ctx : Context := ⟨[], [], [], [], some "Unknown Board"⟩

/-! ### Claim statements for the truncator and paginator -/

/-- The property claim C1 asserts of the truncator. -/
def TruncClaim (text : String) (limit : Nat) : Prop :=
  (text.length ≤ limit → truncate_response text limit = text) ∧
  (limit < text.length →
    truncate_response text limit
      = strTake text (truncateCut text limit) ++ warningBlock text.length limit ∧
    truncateCut text limit ≤ limit * 6 / 10 ∧
    (∃ rest, text = strTake text (truncateCut text limit) ++ rest)) ∧
  (truncate_response text limit).length ≤ limit + (warningBlock text.length limit).length

/-- The behaviour claim C2 describes, amended only where the code
disagrees: a supplied total of 0 is falsy in the guard
`total = total or len(items)`, so it is replaced by the pre-slice length,
and the returned page length is `min limit (len(items) - offset)`
(which equals `min limit (max 0 (total - offset))` whenever the total was
not overridden). -/
def PaginateClaim {α : Type} (items : List α) (offset limit : Nat)
    (total? : Option Nat) : Prop :=
  (paginate_results items offset limit total?).items = (items.drop offset).take limit ∧
  (paginate_results items offset limit total?).count
      = ((items.drop offset).take limit).length ∧
  (∀ t, total? = some t → t ≠ 0 → (paginate_results items offset limit total?).total = t) ∧
  ((total? = none ∨ total? = some 0) →
      (paginate_results items offset limit total?).total = items.length) ∧
  ((paginate_results items offset limit total?).has_more = true
      ↔ offset + limit < (paginate_results items offset limit total?).total) ∧
  ((paginate_results items offset limit total?).next_offset
      = if offset + limit < (paginate_results items offset limit total?).total
        then some (offset + limit) else none) ∧
  (paginate_results items offset limit total?).count = min limit (items.length - offset) ∧
  ((paginate_results items 0 items.length none).items = items ∧
      (paginate_results items 0 items.length none).has_more = false)

/-! ### Claim statements for the formatter and handlers -/

/-- Containment: `t` occurs contiguously inside `s`. -/
def StrContains (s t : String) : Prop := ∃ a b, s = a ++ (t ++ b)

/-- A tool response that passed through the truncator as its final step:
it is `truncate_response` of some content, and its length is bounded by
the limit plus the length of the appended warning block. -/
def TruncFinal (s : String) : Prop :=
  ∃ content, s = truncate_response content 25000 ∧
    s.length ≤ 25000 + (warningBlock content.length 25000).length

/-- The property claim C6 asserts of the formatters (amended): an absent
`listId` renders the `Unknown List` placeholder in all three detail
levels; an absent comment author renders `Unknown User`; a card with no
resolvable label association renders the `None` / `(No labels)`
placeholder; but an individual label id that is present in the
association map while absent from the labels map renders as the empty
string (the formatter is total either way, being a Lean function). -/
def FormatterDefaultsClaim (card : Card) (ctx : Context) : Prop :=
  ((∀ lid, card.listId = some lid → dictGet ctx.lists lid = none) →
     StrContains (format_card_preview card ctx) "Unknown List" ∧
     StrContains (format_card_summary card ctx) "Unknown List" ∧
     StrContains (format_card_detailed card ctx) "Unknown List") ∧
  (∀ com, com ∈ card.comments.getD [] →
     dictGet ctx.users (com.userId.getD "Unknown") = none →
     StrContains (format_card_detailed card ctx) "Unknown User") ∧
  (assocLabelIds ctx.card_labels card.id = [] →
     StrContains (format_card_preview card ctx) "None" ∧
     StrContains (format_card_summary card ctx) "None" ∧
     StrContains (format_card_detailed card ctx) "(No labels)") ∧
  (∀ lid, lid ∈ assocLabelIds ctx.card_labels card.id →
     dictGet ctx.labels lid = none → lookupLabelName ctx lid = "")

/-- The content of the markdown branch of `planka_list_cards`
(cards.py:89-99): the paginated page rendered by the formatter, plus the
pagination footer when more data remains. -/
def listCardsMarkdownContent (bd : BoardDetail) (p : ListCardsInput) : String :=
  let paginated := paginate_results (listCardsFiltered bd p) p.offset p.limit none
  let content := format_card_list_markdown paginated.items (listCardsContext bd) p.detail_level
  if paginated.has_more then
    content ++ "\n\n---\n**Pagination**: Showing " ++ Nat.repr paginated.count ++
    " of " ++ Nat.repr paginated.total ++ " cards. " ++ "Use offset=" ++
    (match paginated.next_offset with
     | some n => Nat.repr n
     | none => "None") ++ " to see more.\n"
  else content

/-- The property claim C7 asserts (amended): the header line of the card
list states the number of cards in the list it renders, and the handler
passes it the paginated page — so the header shows the page count, not
the post-filter pre-pagination total (which appears only in the
pagination footer). -/
def ListHeaderClaim (bd : BoardDetail) (p : ListCardsInput) : Prop :=
  (∀ (cards : List Card) (ctx : Context) (dl : DetailLevel), cards ≠ [] →
     strStartsWith (format_card_list_markdown cards ctx dl)
       ("# Cards (" ++ Nat.repr cards.length ++ " found)") = true) ∧
  (p.response_format = ResponseFormat.markdown →
     planka_list_cards true bd p
       = truncate_response (listCardsMarkdownContent bd p) 25000)

/-- What claim C8 asserts cannot happen: handlers/cards.py never imports
`json` (lines 1-8), so for EVERY board response and every json-mode
parameter set the JSON arm of `planka_list_cards` raises
`NameError: name \x27json\x27 is not defined` at the `json.dumps` callee
lookup (cards.py:101, before `board["id"]` at cards.py:103) and the tool
returns the unexpected-error rendering of that NameError — never a JSON
serialization (the output does not even start with a brace), contradicting
the claim that the serialized record tree is produced without error. -/
def ListCardsJsonClaim (bd : BoardDetail) (p : ListCardsInput) : Prop :=
  p.response_format = ResponseFormat.json →
    planka_list_cards true bd p
      = "Error: Unexpected error - NameError: name \x27json\x27 is not defined" ∧
    strStartsWith (planka_list_cards true bd p) "\x7b" = false

/-- The property claim C9 asserts (amended): with an uninitialized
dependency, list_cards / get_card / find_and_get_card immediately return
the literal error string naming the missing dependency, independent of
every other argument; get_workspace instead RAISES a RuntimeError
(workspace.py:115-116), the one tool that does not return a string. -/
def UninitClaim : Prop :=
  (∀ (bd : BoardDetail) (p : ListCardsInput),
     planka_list_cards false bd p
       = "Error: Unexpected error - RuntimeError: API client not initialized") ∧
  (∀ (resp : CardResponse) (ws : WorkspaceSnapshot) (p : GetCardInput),
     planka_get_card false resp ws p
       = "Error: Unexpected error - RuntimeError: API client or Cache not initialized") ∧
  (∀ (ws : WorkspaceSnapshot) (bf : String → BoardDetail)
     (cf : String → CardResponse) (p : FindAndGetCardInput),
     planka_find_and_get_card false ws bf cf p
       = "Error: Unexpected error - RuntimeError: API client or Cache not initialized") ∧
  (∀ (ws : WorkspaceSnapshot) (p : GetWorkspaceInput),
     planka_get_workspace false ws p
       = Except.error (PyErr.runtimeError "Cache not initialized"))

/-- The property claim C3 asserts (amended): get_workspace applies the
truncator as the final step in both formats; list_cards and get_card
apply it as the final step of their markdown paths, while their JSON
paths crash on the unbound name `json` and return a short untruncated
error string — which still respects the truncation bound — so all three
outputs satisfy `TruncFinal`.  `planka_find_and_get_card` is excluded: it
returns its formatted output untruncated and can exceed the bound. -/
def ReadToolsTruncateClaim (wsData : WorkspaceSnapshot) (pw : GetWorkspaceInput)
    (bd : BoardDetail) (pl : ListCardsInput) (resp : CardResponse)
    (ws2 : WorkspaceSnapshot) (pc : GetCardInput) : Prop :=
  TruncFinal (planka_get_workspace_render wsData pw) ∧
  TruncFinal (planka_list_cards true bd pl) ∧
  TruncFinal (planka_get_card true resp ws2 pc)

/-! ### Claim statements for the cache -/

/-- A get-or-fetch on the workspace tier at `now` misses: no entry, or an
expired one. -/
def WsMiss {ω βv κ : Type} (c : PlankaCache ω βv κ) (now : Nat) : Prop :=
  ∀ e, c.workspace = some e → e.is_valid now = false

/-- A get-or-fetch on the board tier at `now` misses for `bid`. -/
def BoardMiss {ω βv κ : Type} (c : PlankaCache ω βv κ) (now : Nat) (bid : String) : Prop :=
  ∀ e, dictGet c.board_overviews bid = some e → e.is_valid now = false

/-- A get-or-fetch on the card tier at `now` misses for `cid`. -/
def CardMiss {ω βv κ : Type} (c : PlankaCache ω βv κ) (now : Nat) (cid : String) : Prop :=
  ∀ e, dictGet c.card_details cid = some e → e.is_valid now = false

/-- The property claim C5 asserts (amended): when the fetch of a miss fails, the
error propagates unchanged, no entry is stored in any tier — the entries
are exactly as before the call, though the tier miss counter is bumped —
and a subsequent get-or-fetch for the same key at any later instant again
returns whatever its own fetch produces rather than a cached value. -/
def FetchFailureClaim {ω βv κ ε : Type} (c : PlankaCache ω βv κ)
    (now now2 : Nat) (bid cid : String) (exn : ε) : Prop :=
  ((c.get_workspace now (Except.error exn)).1 = Except.error exn ∧
   (c.get_workspace now (Except.error exn)).2.workspace = c.workspace ∧
   (c.get_workspace now (Except.error exn)).2.board_overviews = c.board_overviews ∧
   (c.get_workspace now (Except.error exn)).2.card_details = c.card_details ∧
   (∀ fetch2 : Except ε ω,
      ((c.get_workspace now (Except.error exn)).2.get_workspace now2 fetch2).1 = fetch2)) ∧
  ((c.get_board_overview now bid (Except.error exn)).1 = Except.error exn ∧
   (c.get_board_overview now bid (Except.error exn)).2.workspace = c.workspace ∧
   (c.get_board_overview now bid (Except.error exn)).2.board_overviews = c.board_overviews ∧
   (c.get_board_overview now bid (Except.error exn)).2.card_details = c.card_details ∧
   (∀ fetch2 : Except ε βv,
      ((c.get_board_overview now bid (Except.error exn)).2.get_board_overview now2 bid fetch2).1
        = fetch2)) ∧
  ((c.get_card now cid (Except.error exn)).1 = Except.error exn ∧
   (c.get_card now cid (Except.error exn)).2.workspace = c.workspace ∧
   (c.get_card now cid (Except.error exn)).2.board_overviews = c.board_overviews ∧
   (c.get_card now cid (Except.error exn)).2.card_details = c.card_details ∧
   (∀ fetch2 : Except ε κ,
      ((c.get_card now cid (Except.error exn)).2.get_card now2 cid fetch2).1 = fetch2))

/-- The property claim C10 asserts of the three invalidation operations:
each removes at most its own named entry, leaves every other entry of its
tier, the other tiers and the statistics untouched, and is a silent no-op
on an absent key. -/
def InvalidateClaim {ω βv κ : Type} (c : PlankaCache ω βv κ) (bid cid : String) : Prop :=
  (c.invalidate_workspace.workspace = none ∧
   c.invalidate_workspace.board_overviews = c.board_overviews ∧
   c.invalidate_workspace.card_details = c.card_details ∧
   c.invalidate_workspace.stats = c.stats ∧
   (c.workspace = none → c.invalidate_workspace = c)) ∧
  (dictGet (c.invalidate_board bid).board_overviews bid = none ∧
   (∀ k, k ≠ bid →
      dictGet (c.invalidate_board bid).board_overviews k = dictGet c.board_overviews k) ∧
   (c.invalidate_board bid).workspace = c.workspace ∧
   (c.invalidate_board bid).card_details = c.card_details ∧
   (c.invalidate_board bid).stats = c.stats ∧
   (dictGet c.board_overviews bid = none → c.invalidate_board bid = c)) ∧
  (dictGet (c.invalidate_card cid).card_details cid = none ∧
   (∀ k, k ≠ cid →
      dictGet (c.invalidate_card cid).card_details k = dictGet c.card_details k) ∧
   (c.invalidate_card cid).workspace = c.workspace ∧
   (c.invalidate_card cid).board_overviews = c.board_overviews ∧
   (c.invalidate_card cid).stats = c.stats ∧
   (dictGet c.card_details cid = none → c.invalidate_card cid = c))

/-- The property claim C4 asserts of cleanup: above the 300-entry cap the
card tier is reduced to exactly the 100 most-recently-fetched entries (by
timestamp), everything else is untouched, and at or below the cap cleanup
changes nothing. -/
def CleanupClaim {ω βv κ : Type} (c : PlankaCache ω βv κ) : Prop :=
  (c.card_details.length ≤ 300 → c.cleanup_card_cache = c) ∧
  (300 < c.card_details.length →
    c.cleanup_card_cache.card_details.length = 100 ∧
    c.cleanup_card_cache.workspace = c.workspace ∧
    c.cleanup_card_cache.board_overviews = c.board_overviews ∧
    c.cleanup_card_cache.stats = c.stats ∧
    (∀ p ∈ c.cleanup_card_cache.card_details, p ∈ c.card_details) ∧
    (∀ p ∈ c.cleanup_card_cache.card_details, ∀ q ∈ c.card_details,
        q ∉ c.cleanup_card_cache.card_details → q.2.timestamp ≤ p.2.timestamp))

/-- An empty cache (the state right after `PlankaCache.__init__`). -/
def emptyCache : PlankaCache Unit Unit Unit :=
  ⟨none, [], [], ⟨0, 0, 0, 0, 0, 0⟩⟩

/-- A card tier holding 301 entries with increasing timestamps, used to
witness the eviction claim. -/
def cleanupWitnessCache : PlankaCache Unit Unit Unit :=
  ⟨none, [], (List.range 301).map (fun i => (Nat.repr i, ⟨(), i, 60⟩)), ⟨0, 0, 0, 0, 0, 0⟩⟩

/-! ### Basic lemmas about the string primitives -/

theorem strTake_length (s : String) (n : Nat) : (strTake s n).length = min n s.length := by
  show (s.data.take n).length = min n s.length
  rw [List.length_take]
  rfl

theorem strTake_strTake (s : String) (m n : Nat) :
    strTake (strTake s m) n = strTake s (min n m) := by
  show String.mk ((s.data.take m).take n) = String.mk (s.data.take (min n m))
  rw [List.take_take]

theorem strTake_append_strDrop (s : String) (n : Nat) :
    strTake s n ++ strDrop s n = s := by
  show String.mk (s.data.take n ++ s.data.drop n) = s
  rw [List.take_append_drop]

theorem rfindAux_lt (c : Char) :
    ∀ (cs : List Char) (acc : Option Nat) (j : Nat),
      (∀ i, acc = some i → i < j) →
      ∀ i, rfindAux c cs acc j = some i → i < j + cs.length := by
  intro cs
  induction cs with
  | nil =>
    intro acc j h i hi
    simpa using h i hi
  | cons x xs ih =>
    intro acc j h i hi
    have h' : ∀ i2, (if x == c then some j else acc) = some i2 → i2 < j + 1 := by
      intro i2 hip
      split at hip
      · cases hip
        exact Nat.lt_succ_self _
      · exact Nat.lt_succ_of_lt (h i2 hip)
    have h2 := ih (if x == c then some j else acc) (j + 1) h' i hi
    simp only [List.length_cons]
    omega

theorem strRfind_lt (s : String) (c : Char) (i : Nat) (h : strRfind s c = some i) :
    i < s.length := by
  have := rfindAux_lt c s.data none 0 (by intro i hi; cases hi) i h
  simpa using this

/-! ### Truncator lemmas -/

theorem truncateCut_le (content : String) (limit : Nat) :
    truncateCut content limit ≤ limit * 6 / 10 := by
  unfold truncateCut
  cases heq : strRfind (strTake content (limit * 6 / 10)) '\n' with
  | none => simp [heq]
  | some i =>
    simp only [heq]
    split
    · have hi := strRfind_lt _ _ _ heq
      rw [strTake_length] at hi
      have hmin := Nat.min_le_left (limit * 6 / 10) content.length
      omega
    · exact Nat.le_refl _

theorem truncate_response_eq_of_gt (content : String) (limit : Nat)
    (h : limit < content.length) :
    truncate_response content limit
      = strTake content (truncateCut content limit) ++ warningBlock content.length limit := by
  unfold truncate_response truncateCut
  rw [if_neg (by omega)]
  cases heq : strRfind (strTake content (limit * 6 / 10)) '\n' with
  | none => simp only [heq]
  | some i =>
    simp only [heq]
    by_cases hc : 8 * (limit * 6 / 10) < 10 * i
    · rw [if_pos hc, if_pos hc, strTake_strTake]
      have hi := strRfind_lt _ _ _ heq
      rw [strTake_length] at hi
      have hle : i ≤ limit * 6 / 10 := by
        have hmin := Nat.min_le_left (limit * 6 / 10) content.length
        omega
      rw [Nat.min_eq_left hle]
    · rw [if_neg hc, if_neg hc]

theorem truncate_response_eq_of_le (content : String) (limit : Nat)
    (h : content.length ≤ limit) : truncate_response content limit = content := by
  unfold truncate_response
  rw [if_pos h]

theorem truncate_response_length_le (content : String) (limit : Nat) :
    (truncate_response content limit).length
      ≤ limit + (warningBlock content.length limit).length := by
  by_cases h : content.length ≤ limit
  · rw [truncate_response_eq_of_le content limit h]
    omega
  · have h' : limit < content.length := Nat.lt_of_not_le h
    rw [truncate_response_eq_of_gt content limit h']
    rw [String.length_append, strTake_length]
    have hcut := truncateCut_le content limit
    have hmin := Nat.min_le_left (truncateCut content limit) content.length
    have hdiv : limit * 6 / 10 ≤ limit := by omega
    omega

/-- Claim C1: for every string and positive limit, `truncate_response`
returns the text unchanged when it fits; otherwise it returns the prefix
of the text cut at `0.6 × limit` characters, backed off to the last
preceding newline when that newline exceeds `0.8 ×` the cut point,
followed by the warning block reporting the original length and the
limit; the result length is at most `limit` plus the warning block
length. -/
theorem truncate_response_meets_claim (text : String) (limit : Nat) (hl : 0 < limit) :
    TruncClaim text limit := by
  refine ⟨truncate_response_eq_of_le text limit, ?_, truncate_response_length_le text limit⟩
  intro h
  exact ⟨truncate_response_eq_of_gt text limit h, truncateCut_le text limit,
    ⟨strDrop text (truncateCut text limit), (strTake_append_strDrop _ _).symm⟩⟩

/-- Witness for C1 at a concrete input. -/
theorem truncate_response_claim_witness : 0 < 3 ∧ TruncClaim "abcdef" 3 :=
  ⟨by decide, truncate_response_meets_claim "abcdef" 3 (by decide)⟩

/-! ### Paginator theorems -/

/-- Claim C2 (corrected): `paginate_results` slices `items[offset:offset+limit]`,
reports that slice and its length, takes a supplied nonzero total verbatim
and the pre-slice length otherwise (a supplied total of 0 is treated as
absent by the Python `or`), sets `has_more = offset+limit < total` and
`next_offset` accordingly, and the full-range call is the identity. -/
theorem paginate_results_meets_claim {α : Type} (items : List α)
    (offset limit : Nat) (total? : Option Nat) (hlim : 1 ≤ limit) :
    PaginateClaim items offset limit total? := by
  refine ⟨rfl, rfl, ?_, ?_, ?_, ?_, ?_, ?_, ?_⟩
  · intro t ht hne
    subst ht
    simp [paginate_results, hne]
  · intro h
    rcases h with h | h <;> subst h <;> simp [paginate_results]
  · simp [paginate_results]
  · simp [paginate_results]
  · show ((items.drop offset).take limit).length = min limit (items.length - offset)
    rw [List.length_take, List.length_drop]
  · show (items.drop 0).take items.length = items
    rw [List.drop_zero, List.take_length]
  · simp [paginate_results]

/-- Witness for C2 at a concrete input. -/
theorem paginate_results_claim_witness :
    1 ≤ 1 ∧ PaginateClaim [10, 20, 30] 1 1 none :=
  ⟨by decide, paginate_results_meets_claim [10, 20, 30] 1 1 none (by decide)⟩

/-- Counterexample for C2 as stated: an explicitly supplied total of 0 is
not honoured — `total = total or len(items)` treats 0 as falsy, so the
returned total is the pre-slice length 1, not the supplied 0. -/
theorem paginate_results_supplied_zero_total_ignored :
    (paginate_results [10] 0 1 (some 0)).total = 1 ∧
      ¬((paginate_results [10] 0 1 (some 0)).total = 0) := by
  constructor <;> decide

/-! ### Dict lemmas -/

theorem find?_dictDel_self {β : Type} (d : List (String × β)) (k : String) :
    (dictDel d k).find? (fun p => p.1 == k) = none := by
  induction d with
  | nil => rfl
  | cons p rest ih =>
    by_cases hp : (p.1 == k) = true
    · simpa [dictDel, List.filter_cons, hp] using ih
    · have hp' : (p.1 == k) = false := by
        cases h : (p.1 == k)
        · rfl
        · exact absurd h hp
      simpa [dictDel, List.filter_cons, hp', List.find?] using ih

theorem dictGet_dictDel_self {β : Type} (d : List (String × β)) (k : String) :
    dictGet (dictDel d k) k = none := by
  unfold dictGet
  rw [find?_dictDel_self]
  rfl

theorem dictGet_dictDel_ne {β : Type} (d : List (String × β)) (k k' : String)
    (h : k' ≠ k) : dictGet (dictDel d k) k' = dictGet d k' := by
  induction d with
  | nil => rfl
  | cons p rest ih =>
    by_cases h1 : p.1 = k
    · have hpk : (p.1 == k) = true := by simpa using h1
      have hpk' : (p.1 == k') = false := by
        simp only [beq_eq_false_iff_ne, ne_eq]
        intro hc
        exact h (by rw [← hc, h1])
      simp [dictDel, List.filter_cons, hpk, dictGet, List.find?, hpk'] at *
      exact ih
    · have hpk : (p.1 == k) = false := by simpa using h1
      by_cases h2 : p.1 = k'
      · have hpk' : (p.1 == k') = true := by simpa using h2
        simp [dictDel, List.filter_cons, hpk, dictGet, List.find?, hpk']
      · have hpk' : (p.1 == k') = false := by simpa using h2
        simp [dictDel, List.filter_cons, hpk, dictGet, List.find?, hpk'] at *
        exact ih

theorem dictGet_none_iff_any_false {β : Type} (d : List (String × β)) (k : String) :
    dictGet d k = none ↔ d.any (fun p => p.1 == k) = false := by
  induction d with
  | nil => simp [dictGet]
  | cons p rest ih =>
    by_cases hp : (p.1 == k) = true
    · simp [dictGet, List.find?, hp]
    · have hp' : (p.1 == k) = false := by
        cases hc : (p.1 == k)
        · rfl
        · exact absurd hc hp
      simpa [dictGet, List.find?, hp', List.any_cons] using ih

/-! ### Cache entry validity -/

theorem is_valid_mono_false {α : Type} (e : CacheEntry α) (n n2 : Nat)
    (h12 : n ≤ n2) (hv : e.is_valid n = false) : e.is_valid n2 = false := by
  simp only [CacheEntry.is_valid, decide_eq_false_iff_not, not_lt] at *
  omega

/-! ### Cache get-or-fetch on a miss -/

theorem get_workspace_of_miss {ω βv κ ε : Type} (c : PlankaCache ω βv κ) (now : Nat)
    (h : WsMiss c now) (fetch : Except ε ω) :
    c.get_workspace now fetch = c.get_workspace_miss now fetch := by
  unfold PlankaCache.get_workspace
  cases cw : c.workspace with
  | none => rfl
  | some e =>
    simp [h e cw]

theorem get_workspace_miss_fst {ω βv κ ε : Type} (c : PlankaCache ω βv κ) (now : Nat)
    (fetch : Except ε ω) : (c.get_workspace_miss now fetch).1 = fetch := by
  unfold PlankaCache.get_workspace_miss
  cases fetch <;> rfl

theorem get_board_overview_of_miss {ω βv κ ε : Type} (c : PlankaCache ω βv κ) (now : Nat)
    (bid : String) (h : BoardMiss c now bid) (fetch : Except ε βv) :
    c.get_board_overview now bid fetch = c.get_board_overview_miss now bid fetch := by
  unfold PlankaCache.get_board_overview
  cases cw : dictGet c.board_overviews bid with
  | none => rfl
  | some e =>
    simp [h e cw]

theorem get_board_overview_miss_fst {ω βv κ ε : Type} (c : PlankaCache ω βv κ) (now : Nat)
    (bid : String) (fetch : Except ε βv) :
    (c.get_board_overview_miss now bid fetch).1 = fetch := by
  unfold PlankaCache.get_board_overview_miss
  cases fetch <;> rfl

theorem get_card_of_miss {ω βv κ ε : Type} (c : PlankaCache ω βv κ) (now : Nat)
    (cid : String) (h : CardMiss c now cid) (fetch : Except ε κ) :
    c.get_card now cid fetch = c.get_card_miss now cid fetch := by
  unfold PlankaCache.get_card
  cases cw : dictGet c.card_details cid with
  | none => rfl
  | some e =>
    simp [h e cw]

theorem get_card_miss_fst {ω βv κ ε : Type} (c : PlankaCache ω βv κ) (now : Nat)
    (cid : String) (fetch : Except ε κ) : (c.get_card_miss now cid fetch).1 = fetch := by
  unfold PlankaCache.get_card_miss
  cases fetch <;> rfl

/-- Claim C5 (corrected): a failing fetch on any tier propagates its error
unchanged and stores nothing — the entries of all three tiers are exactly
as before, and the same key misses again later (the stats miss counter,
part of the tier state, is nevertheless incremented, which is the one
divergence from the claim as stated). -/
theorem cache_fetch_failure_meets_claim {ω βv κ ε : Type} (c : PlankaCache ω βv κ)
    (now now2 : Nat) (bid cid : String) (exn : ε)
    (hw : WsMiss c now) (hb : BoardMiss c now bid) (hc : CardMiss c now cid)
    (h12 : now ≤ now2) : FetchFailureClaim c now now2 bid cid exn := by
  refine ⟨?_, ?_, ?_⟩
  · rw [get_workspace_of_miss c now hw]
    refine ⟨get_workspace_miss_fst c now _, rfl, rfl, rfl, ?_⟩
    intro f2
    have hmiss : WsMiss (c.get_workspace_miss now (Except.error exn)).2 now2 := by
      intro e he
      exact is_valid_mono_false e now now2 h12 (hw e he)
    rw [get_workspace_of_miss _ now2 hmiss]
    exact get_workspace_miss_fst _ now2 f2
  · rw [get_board_overview_of_miss c now bid hb]
    refine ⟨get_board_overview_miss_fst c now bid _, rfl, rfl, rfl, ?_⟩
    intro f2
    have hmiss : BoardMiss (c.get_board_overview_miss now bid (Except.error exn)).2 now2 bid := by
      intro e he
      exact is_valid_mono_false e now now2 h12 (hb e he)
    rw [get_board_overview_of_miss _ now2 bid hmiss]
    exact get_board_overview_miss_fst _ now2 bid f2
  · rw [get_card_of_miss c now cid hc]
    refine ⟨get_card_miss_fst c now cid _, rfl, rfl, rfl, ?_⟩
    intro f2
    have hmiss : CardMiss (c.get_card_miss now cid (Except.error exn)).2 now2 cid := by
      intro e he
      exact is_valid_mono_false e now now2 h12 (hc e he)
    rw [get_card_of_miss _ now2 cid hmiss]
    exact get_card_miss_fst _ now2 cid f2

/-- Witness for C5 at a concrete input: the empty cache misses everywhere. -/
theorem cache_fetch_failure_claim_witness :
    WsMiss emptyCache 0 ∧ BoardMiss emptyCache 0 "b" ∧ CardMiss emptyCache 0 "c" ∧
      (0 : Nat) ≤ 1 ∧ FetchFailureClaim emptyCache 0 1 "b" "c" () := by
  have hw : WsMiss emptyCache 0 := by
    intro e he
    simp [emptyCache] at he
  have hb : BoardMiss emptyCache 0 "b" := by
    intro e he
    simp [emptyCache, dictGet] at he
  have hc : CardMiss emptyCache 0 "c" := by
    intro e he
    simp [emptyCache, dictGet] at he
  exact ⟨hw, hb, hc, by omega,
    cache_fetch_failure_meets_claim emptyCache 0 1 "b" "c" () hw hb hc (by omega)⟩

/-- Counterexample for C5 as stated: after a failed fetch the tier state is
not literally "as it was before the call" — the miss counter has been
incremented before the fetch ran, so the post state differs from the pre
state even though the entries are unchanged. -/
theorem get_card_error_still_counts_miss :
    (emptyCache.get_card 0 "c" (Except.error ())).2.stats.card_misses = 1 ∧
      ¬((emptyCache.get_card 0 "c" (Except.error ())).2 = emptyCache) := by
  constructor <;> decide

/-! ### Invalidation (claim C10) -/

/-- Claim C10: each invalidation removes at most its own named entry,
leaves every other entry of that tier, the other two tiers and the hit or
miss counters unchanged, and invalidating an absent key is a silent no-op. -/
theorem invalidate_meets_claim {ω βv κ : Type} (c : PlankaCache ω βv κ)
    (bid cid : String) : InvalidateClaim c bid cid := by
  refine ⟨⟨rfl, rfl, rfl, rfl, ?_⟩, ⟨?_, ?_, ?_, ?_, ?_, ?_⟩, ⟨?_, ?_, ?_, ?_, ?_, ?_⟩⟩
  · intro h
    cases c
    simp_all [PlankaCache.invalidate_workspace]
  · unfold PlankaCache.invalidate_board
    split
    · exact dictGet_dictDel_self c.board_overviews bid
    · rename_i hguard
      have hfalse : c.board_overviews.any (fun p => p.1 == bid) = false := by
        cases hc : c.board_overviews.any (fun p => p.1 == bid)
        · rfl
        · exact absurd hc hguard
      exact (dictGet_none_iff_any_false c.board_overviews bid).mpr hfalse
  · intro k hk
    unfold PlankaCache.invalidate_board
    split
    · exact dictGet_dictDel_ne c.board_overviews bid k hk
    · rfl
  · unfold PlankaCache.invalidate_board
    split <;> rfl
  · unfold PlankaCache.invalidate_board
    split <;> rfl
  · unfold PlankaCache.invalidate_board
    split <;> rfl
  · intro h
    unfold PlankaCache.invalidate_board
    rw [if_neg]
    rw [(dictGet_none_iff_any_false c.board_overviews bid).mp h]
    simp
  · unfold PlankaCache.invalidate_card
    split
    · exact dictGet_dictDel_self c.card_details cid
    · rename_i hguard
      have hfalse : c.card_details.any (fun p => p.1 == cid) = false := by
        cases hc : c.card_details.any (fun p => p.1 == cid)
        · rfl
        · exact absurd hc hguard
      exact (dictGet_none_iff_any_false c.card_details cid).mpr hfalse
  · intro k hk
    unfold PlankaCache.invalidate_card
    split
    · exact dictGet_dictDel_ne c.card_details cid k hk
    · rfl
  · unfold PlankaCache.invalidate_card
    split <;> rfl
  · unfold PlankaCache.invalidate_card
    split <;> rfl
  · unfold PlankaCache.invalidate_card
    split <;> rfl
  · intro h
    unfold PlankaCache.invalidate_card
    rw [if_neg]
    rw [(dictGet_none_iff_any_false c.card_details cid).mp h]
    simp

/-- Witness for C10 at a concrete input. -/
theorem invalidate_claim_witness :
    emptyCache.workspace = none ∧ InvalidateClaim emptyCache "b" "c" :=
  ⟨rfl, invalidate_meets_claim emptyCache "b" "c"⟩

/-! ### Eviction (claim C4) -/

/-- Claim C4: when the card tier holds more than the 300-entry cap,
cleanup keeps exactly the 100 most-recently-fetched entries as ordered by
timestamp (every kept entry is at least as recent as every discarded one)
and touches nothing else; at or below the cap it changes nothing. -/
theorem cleanup_card_cache_meets_claim {ω βv κ : Type} (c : PlankaCache ω βv κ) :
    CleanupClaim c := by
  constructor
  · intro h
    unfold PlankaCache.cleanup_card_cache
    rw [if_neg (by omega)]
  · intro h
    have htrans : ∀ (a b c' : String × CacheEntry κ),
        (fun a b => decide (a.2.timestamp ≤ b.2.timestamp)) a b →
        (fun a b => decide (a.2.timestamp ≤ b.2.timestamp)) b c' →
        (fun a b => decide (a.2.timestamp ≤ b.2.timestamp)) a c' := by
      intro a b c' hab hbc
      simp only [decide_eq_true_eq] at *
      omega
    have htotal : ∀ (a b : String × CacheEntry κ),
        ((fun a b => decide (a.2.timestamp ≤ b.2.timestamp)) a b ||
         (fun a b => decide (a.2.timestamp ≤ b.2.timestamp)) b a) = true := by
      intro a b
      rcases Nat.le_total a.2.timestamp b.2.timestamp with h' | h' <;> simp [h']
    have hsorted := List.sorted_mergeSort htrans htotal c.card_details
    unfold PlankaCache.cleanup_card_cache
    rw [if_pos h]
    refine ⟨?_, rfl, rfl, rfl, ?_, ?_⟩
    · show ((c.card_details.mergeSort
          (fun a b => decide (a.2.timestamp ≤ b.2.timestamp))).drop
            (c.card_details.length - 100)).length = 100
      rw [List.length_drop, List.length_mergeSort]
      omega
    · intro p hp
      exact List.mem_mergeSort.mp (List.mem_of_mem_drop hp)
    · intro p hp q hq hqn
      have hqs : q ∈ c.card_details.mergeSort
          (fun a b => decide (a.2.timestamp ≤ b.2.timestamp)) :=
        List.mem_mergeSort.mpr hq
      have hsplit := List.take_append_drop (c.card_details.length - 100)
        (c.card_details.mergeSort (fun a b => decide (a.2.timestamp ≤ b.2.timestamp)))
      have hq2 : q ∈ (c.card_details.mergeSort
          (fun a b => decide (a.2.timestamp ≤ b.2.timestamp))).take
            (c.card_details.length - 100) := by
        rcases List.mem_append.mp (by rw [hsplit]; exact hqs) with h' | h'
        · exact h'
        · exact absurd h' hqn
      have hpw := hsorted
      rw [← hsplit] at hpw
      have hle := (List.pairwise_append.mp hpw).2.2 q hq2 p hp
      simpa using hle

/-- Witness for C4 at a concrete over-cap input. -/
theorem cleanup_card_cache_claim_witness :
    300 < cleanupWitnessCache.card_details.length ∧ CleanupClaim cleanupWitnessCache :=
  ⟨by simp [cleanupWitnessCache], cleanup_card_cache_meets_claim cleanupWitnessCache⟩

/-! ### Uninitialized dependencies (claim C9) -/

/-- Claim C9 (corrected): three of the four read tools return the literal
error string naming the missing dependency without attempting anything
(the result does not depend on any other argument); `planka_get_workspace`
instead raises a `RuntimeError` when the cache is missing. -/
theorem uninit_dependency_behavior : UninitClaim :=
  ⟨fun _ _ => rfl, fun _ _ _ => rfl, fun _ _ _ _ => rfl, fun _ _ => rfl⟩

/-- Counterexample for C9 as stated: with an uninitialized cache,
`planka_get_workspace` raises (returns an exception, workspace.py:115-116)
instead of returning an error string. -/
theorem get_workspace_uninit_raises :
    planka_get_workspace false emptyWorkspace ⟨ResponseFormat.markdown⟩
      = Except.error (PyErr.runtimeError "Cache not initialized") := rfl

/-! ### JSON mode of list_cards (claim C8) -/

/-- Equation lemma: the markdown branch of `planka_list_cards` is the
truncated markdown content. -/
theorem planka_list_cards_markdown_eq (bd : BoardDetail) (p : ListCardsInput)
    (h : p.response_format = ResponseFormat.markdown) :
    planka_list_cards true bd p
      = truncate_response (listCardsMarkdownContent bd p) 25000 := by
  obtain ⟨b1, l1, l2, lim, off, rf, dl⟩ := p
  cases rf
  · rfl
  · exact absurd h (by simp)

/-- Equation lemma: the JSON arm of `planka_list_cards` is the NameError
error string — handlers/cards.py never imports `json` (lines 1-8), so the
callee lookup at `json.dumps` (cards.py:101) raises before evaluating any
argument and the except handler returns the rendered error, untruncated. -/
theorem planka_list_cards_json_eq (bd : BoardDetail) (p : ListCardsInput)
    (h : p.response_format = ResponseFormat.json) :
    planka_list_cards true bd p
      = "Error: Unexpected error - NameError: name \x27json\x27 is not defined" := by
  obtain ⟨b1, l1, l2, lim, off, rf, dl⟩ := p
  cases rf
  · exact absurd h (by simp)
  · rfl

/-- Claim C8 (code bug): the claim says JSON mode returns the serialized
record tree without error, but handlers/cards.py never imports `json`, so
for every board response and every json-mode parameter set
`planka_list_cards` returns the NameError error string — never a JSON
serialization.  The repository test suite expects the serialization
(tests/test_cards.py, test_list_cards_json_format json-decodes the
result), so the missing import is a defect in the code, not in the
claim. -/
theorem list_cards_json_meets_claim (bd : BoardDetail) (p : ListCardsInput) :
    ListCardsJsonClaim bd p := by
  intro hjson
  rw [planka_list_cards_json_eq bd p hjson]
  exact ⟨rfl, by decide⟩

/-- Witness for C8 at the failing input: a one-card board queried in json
mode returns the NameError string, which is not a JSON document. -/
theorem list_cards_json_claim_witness :
    c8params.response_format = ResponseFormat.json ∧
      planka_list_cards true c8bd c8params
        = "Error: Unexpected error - NameError: name \x27json\x27 is not defined" :=
  ⟨rfl, (list_cards_json_meets_claim c8bd c8params rfl).1⟩

/-! ### Header count of the card list (claim C7): counterexample -/

/-- Counterexample for C7 as stated: three cards survive the filters but
with `limit = 2` the header reads `# Cards (2 found)` — the page count —
not `# Cards (3 found)`, the post-filter pre-pagination total. -/
theorem list_cards_header_shows_page_count :
    strStartsWith (planka_list_cards true c7bd c7params) "# Cards (2 found)" = true ∧
      strStartsWith (planka_list_cards true c7bd c7params) "# Cards (3 found)" = false ∧
      (listCardsFiltered c7bd c7params).length = 3 ∧
      (paginate_results (listCardsFiltered c7bd c7params) c7params.offset
        c7params.limit none).items.length = 2 := by
  refine ⟨by decide, by decide, by decide, by decide⟩

/-! ### Truncation as the final step (claim C3) -/

theorem truncFinal_of_truncate (content : String) :
    TruncFinal (truncate_response content 25000) :=
  ⟨content, rfl, truncate_response_length_le content 25000⟩

theorem truncFinal_of_short (s : String) (h : s.length ≤ 25000) : TruncFinal s :=
  ⟨s, (truncate_response_eq_of_le s 25000 h).symm, by omega⟩

/-- Equation lemma for the markdown branch of get_workspace. -/
theorem planka_get_workspace_render_markdown_eq (ws : WorkspaceSnapshot) :
    planka_get_workspace_render ws ⟨ResponseFormat.markdown⟩
      = truncate_response (renderWorkspaceMarkdown ws) 25000 := rfl

theorem planka_get_workspace_render_json_eq (ws : WorkspaceSnapshot) :
    planka_get_workspace_render ws ⟨ResponseFormat.json⟩
      = truncate_response (dumpJ 0 (jsonOfWorkspace ws)) 25000 := rfl

theorem planka_get_card_markdown_eq (resp : CardResponse) (ws : WorkspaceSnapshot)
    (cid : String) :
    planka_get_card true resp ws ⟨cid, ResponseFormat.markdown⟩
      = truncate_response
          (format_card_detailed (mergedCard resp) (getCardContext resp ws)) 25000 := by
  unfold planka_get_card
  rw [if_neg (by decide)]

/-- Equation lemma: the JSON arm of `planka_get_card` is the NameError
error string (unbound name `json` at cards.py:190), returned by the
except handler without passing through `truncate_response`. -/
theorem planka_get_card_json_eq (resp : CardResponse) (ws : WorkspaceSnapshot)
    (cid : String) :
    planka_get_card true resp ws ⟨cid, ResponseFormat.json⟩
      = "Error: Unexpected error - NameError: name \x27json\x27 is not defined" := by
  unfold planka_get_card
  rw [if_neg (by decide)]
  rfl

/-- Claim C3 (corrected): get_workspace applies the truncator as the final
step in both formats; list_cards and get_card apply it as the final step
of their markdown paths, while their JSON paths fail on the unbound name
`json` and return a short error string that still respects the bound — so
the outputs of all three tools satisfy `TruncFinal` on every path.
find_and_get_card is not included; see the counterexample. -/
theorem read_tools_apply_truncator (wsData : WorkspaceSnapshot)
    (pw : GetWorkspaceInput) (bd : BoardDetail) (pl : ListCardsInput)
    (resp : CardResponse) (ws2 : WorkspaceSnapshot) (pc : GetCardInput) :
    ReadToolsTruncateClaim wsData pw bd pl resp ws2 pc := by
  refine ⟨?_, ?_, ?_⟩
  · obtain ⟨rf⟩ := pw
    cases rf
    · rw [planka_get_workspace_render_markdown_eq]
      exact truncFinal_of_truncate _
    · rw [planka_get_workspace_render_json_eq]
      exact truncFinal_of_truncate _
  · obtain ⟨b1, l1, l2, lim, off, rf, dl⟩ := pl
    cases rf
    · rw [planka_list_cards_markdown_eq _ _ rfl]
      exact truncFinal_of_truncate _
    · rw [planka_list_cards_json_eq _ _ rfl]
      exact truncFinal_of_short _ (by decide)
  · obtain ⟨cid, rf⟩ := pc
    cases rf
    · rw [planka_get_card_markdown_eq]
      exact truncFinal_of_truncate _
    · rw [planka_get_card_json_eq]
      exact truncFinal_of_short _ (by decide)

/-- Witness for C3 at concrete inputs. -/
theorem read_tools_truncate_claim_witness :
    ReadToolsTruncateClaim emptyWorkspace ⟨ResponseFormat.markdown⟩ c7bd c7params
      c3resp emptyWorkspace ⟨"c9", ResponseFormat.markdown⟩ :=
  read_tools_apply_truncator emptyWorkspace ⟨ResponseFormat.markdown⟩ c7bd c7params
    c3resp emptyWorkspace ⟨"c9", ResponseFormat.markdown⟩

/-- Counterexample for C3 as stated: `planka_find_and_get_card` never
truncates; with a 26000-character description its single-match detailed
rendering is 26339 characters, exceeding the 25000-character limit plus
the warning block length that every truncated response respects. -/
theorem find_and_get_card_output_exceeds_limit :
    25000 + (warningBlock (planka_find_and_get_card true emptyWorkspace c3boardFetch
        c3cardFetch c3params).length 25000).length
      < (planka_find_and_get_card true emptyWorkspace c3boardFetch c3cardFetch
          c3params).length := by
  have hout : planka_find_and_get_card true emptyWorkspace c3boardFetch c3cardFetch c3params
      = format_card_detailed c3full c3ctx := rfl
  have hdesc : c3full.description.getD "(No description)" = hugeDescription := rfl
  have hhuge : hugeDescription.length = 26000 := by
    show (List.replicate 26000 'a').length = 26000
    rw [List.length_replicate]
  have hlen : (format_card_detailed c3full c3ctx).length = 26339 := by
    unfold format_card_detailed
    rw [String.length_append, String.length_append, hdesc, hhuge]
    decide
  rw [hout, hlen]
  decide

/-! ### Substring navigation lemmas -/

theorem strContains_end (p u : String) : StrContains (p ++ u) u :=
  ⟨p, "", by rw [String.append_empty]⟩

theorem StrContains.appL {s u : String} (h : StrContains s u) (t : String) :
    StrContains (s ++ t) u := by
  rcases h with ⟨a, b, rfl⟩
  exact ⟨a, b ++ t, by rw [String.append_assoc, String.append_assoc]⟩

theorem StrContains.appR {t u : String} (h : StrContains t u) (s : String) :
    StrContains (s ++ t) u := by
  rcases h with ⟨a, b, rfl⟩
  exact ⟨s ++ a, b, by rw [String.append_assoc]⟩

theorem strJoin_append (xs ys : List String) :
    strJoin (xs ++ ys) = strJoin xs ++ strJoin ys := by
  induction xs with
  | nil =>
    show strJoin ys = "" ++ strJoin ys
    rw [String.empty_append]
  | cons x xs ih =>
    show x ++ strJoin (xs ++ ys) = (x ++ strJoin xs) ++ strJoin ys
    rw [ih, String.append_assoc]

theorem strContains_strJoin_of_mem {α : Type} {f : α → String} {x : α}
    {l : List α} (hx : x ∈ l) {u : String} (h : StrContains (f x) u) :
    StrContains (strJoin (l.map f)) u := by
  obtain ⟨s1, s2, rfl⟩ := List.append_of_mem hx
  rw [List.map_append, strJoin_append, List.map_cons]
  show StrContains (strJoin (List.map f s1) ++ (f x ++ strJoin (List.map f s2))) u
  exact (h.appL _).appR _

/-! ### Foreign-key defaults of the formatters (claim C6) -/

theorem lookupListName_absent (ctx : Context) (lid? : Option String)
    (h : ∀ lid, lid? = some lid → dictGet ctx.lists lid = none) :
    lookupListName ctx lid? = "Unknown List" := by
  cases hc : lid? with
  | none => rfl
  | some lid => simp [lookupListName, h lid hc]

/-- Claim C6 (corrected): absent listIds render `Unknown List` in all
three formatters, absent comment authors render `Unknown User`, a card
with no label associations renders the `None` / `(No labels)`
placeholder; an individual label id missing from the labels map renders
as an empty string. -/
theorem formatter_defaults_meet_claim (card : Card) (ctx : Context) :
    FormatterDefaultsClaim card ctx := by
  refine ⟨?_, ?_, ?_, ?_⟩
  · intro h
    have hl := lookupListName_absent ctx card.listId h
    refine ⟨?_, ?_, ?_⟩
    · simp only [format_card_preview]
      rw [hl]
      repeat first
      | exact strContains_end _ _
      | apply StrContains.appL
    · simp only [format_card_summary]
      rw [hl]
      repeat first
      | exact strContains_end _ _
      | apply StrContains.appL
    · simp only [format_card_detailed, detailedPre]
      rw [hl]
      repeat first
      | exact strContains_end _ _
      | apply StrContains.appL
  · intro com hcom hu
    have hne : (card.comments.getD []).isEmpty = false := by
      obtain ⟨s1, s2, hsplit⟩ := List.append_of_mem hcom
      rw [hsplit]
      cases s1 <;> rfl
    have hrc : StrContains (renderComment ctx com) "Unknown User" := by
      simp only [renderComment]
      rw [show ((dictGet ctx.users (com.userId.getD "Unknown")).bind
          (fun u => u.name)).getD "Unknown User" = "Unknown User" from by rw [hu]; rfl]
      repeat first
      | exact strContains_end _ _
      | apply StrContains.appL
    have hpost : StrContains (detailedPost card ctx) "Unknown User" := by
      simp only [detailedPost]
      rw [hne, if_neg (show ¬(false = true) by decide)]
      apply StrContains.appL
      apply StrContains.appL
      apply StrContains.appR
      exact strContains_strJoin_of_mem hcom hrc
    unfold format_card_detailed
    exact hpost.appR _
  · intro h
    refine ⟨?_, ?_, ?_⟩
    · simp only [format_card_preview, h, List.map_nil, joinOrNone, List.isEmpty_nil, if_true]
      repeat first
      | exact strContains_end _ _
      | apply StrContains.appL
    · simp only [format_card_summary, h, List.map_nil, joinOrNone, List.isEmpty_nil, if_true]
      repeat first
      | exact strContains_end _ _
      | apply StrContains.appL
    · simp only [format_card_detailed, detailedPre, h, List.map_nil, List.isEmpty_nil, if_true]
      repeat first
      | exact strContains_end _ _
      | apply StrContains.appL
  · intro lid _ hl
    simp [lookupLabelName, hl]

/-- Witness for C6 at a concrete input. -/
theorem formatter_defaults_claim_witness :
    "l1" ∈ assocLabelIds c6ctx.card_labels c6card.id ∧
      dictGet c6ctx.labels "l1" = none ∧
      FormatterDefaultsClaim c6card c6ctx :=
  ⟨by decide, by decide, formatter_defaults_meet_claim c6card c6ctx⟩

/-- Counterexample for C6 as stated: the one label association of the card
points at the id `l1`, which is absent from the labels map, yet the
rendered preview contains neither the `None` nor the `(No labels)`
placeholder — the label renders as the empty string. -/
theorem format_card_preview_absent_label_renders_empty :
    strContainsB (format_card_preview c6card c6ctx) "None" = false ∧
      strContainsB (format_card_preview c6card c6ctx) "(No labels)" = false ∧
      dictGet c6ctx.labels "l1" = none ∧
      "l1" ∈ assocLabelIds c6ctx.card_labels c6card.id := by
  refine ⟨by decide, by decide, by decide, by decide⟩

/-! ### Header count of the card list (claim C7): the claim theorem -/

theorem pyStrip_data_of_prefix (p s : String) (t : List Char)
    (hsplit : s.data = p.data ++ t)
    (c0 : Char) (cs0 : List Char) (hhead : p.data = c0 :: cs0)
    (hc0 : isPySpace c0 = false)
    (cs1 : List Char) (c1 : Char) (hlast : p.data = cs1 ++ [c1])
    (hc1 : isPySpace c1 = false) :
    p.data <+: (pyStrip s).data := by
  have h1 : s.data.dropWhile isPySpace = s.data := by
    rw [hsplit, hhead, List.cons_append, List.dropWhile_cons, hc0]
    simp
  show p.data <+: ((s.data.dropWhile isPySpace).reverse.dropWhile isPySpace).reverse
  rw [h1, hsplit, List.reverse_append, List.dropWhile_append]
  split
  · rw [hlast, List.reverse_append, List.reverse_singleton, List.singleton_append,
      List.dropWhile_cons, hc1, if_neg (show ¬(false = true) by decide),
      List.reverse_cons, List.reverse_reverse]
  · rw [List.reverse_append, List.reverse_reverse]
    exact List.prefix_append _ _

theorem format_card_list_markdown_header (cards : List Card) (ctx : Context)
    (dl : DetailLevel) (h : cards ≠ []) :
    strStartsWith (format_card_list_markdown cards ctx dl)
      ("# Cards (" ++ Nat.repr cards.length ++ " found)") = true := by
  have hie : cards.isEmpty = false := by
    cases cards
    · exact absurd rfl h
    · rfl
  unfold format_card_list_markdown
  rw [hie, if_neg (show ¬(false = true) by decide)]
  unfold strStartsWith
  apply List.isPrefixOf_iff_prefix.mpr
  have hph : ("# Cards (" ++ Nat.repr cards.length ++ " found)\n\n")
      = ("# Cards (" ++ Nat.repr cards.length ++ " found)") ++ "\n\n" := by
    rw [String.append_assoc ("# Cards (" ++ Nat.repr cards.length) " found)" "\n\n"]
    rfl
  apply pyStrip_data_of_prefix _ _
    (("\n\n" ++ strJoin (cards.map (renderCardBlock dl ctx))).data)
    ?hsplit '#' (" Cards (".data ++ ((Nat.repr cards.length).data ++ " found)".data))
    ?hhead (by decide)
    (("# Cards (" ++ Nat.repr cards.length).data ++ " found".data) ')' ?hlast (by decide)
  case hsplit =>
    rw [hph, String.append_assoc, String.data_append]
  case hhead => rfl
  case hlast =>
    rw [List.append_assoc]
    rfl

/-- Claim C7 (corrected): the header line of the rendered card list states
the number of cards on the page it renders, and `planka_list_cards`
renders the paginated page — so the header shows the page count, not the
post-filter pre-pagination total. -/
theorem list_cards_header_meets_claim (bd : BoardDetail) (p : ListCardsInput) :
    ListHeaderClaim bd p := by
  constructor
  · intro cards ctx dl h
    exact format_card_list_markdown_header cards ctx dl h
  · intro h
    exact planka_list_cards_markdown_eq bd p h

/-- Witness for C7 at a concrete input. -/
theorem list_cards_header_claim_witness :
    c7params.response_format = ResponseFormat.markdown ∧
      ([c6card] : List Card) ≠ [] ∧
      ListHeaderClaim c7bd c7params :=
  ⟨rfl, by decide, list_cards_header_meets_claim c7bd c7params⟩
